import Mathlib

/-!
Verification development for the Gobol language toolchain
(lexer → parser → semantic analyzer → bytecode compiler → stack VM).

Shallow embedding conventions:
* C++ `double` is modelled as `ℚ` (exact rationals; no claim under study
  exercises NaN, infinities or rounding error).
* C++ `int` is modelled as `Int` (no claim exercises 32-bit overflow).
* `std::vector` used as a stack (top = `back()`) is modelled as a Lean
  `List` whose *head* is the stack top.
* `std::unordered_map` is modelled as an association list with no duplicate
  keys (the code only inserts a key after a failed lookup).
* Text written to stdout / stderr is collected in `output` / `errors` lists.
* C++ exceptions (only reachable via `pop` on an empty eval stack or a
  `getFloat`/`getInt` on a value of the wrong variant) are modelled by
  `Option`: `none` means the exception propagated.
-/

set_option maxHeartbeats 1000000

namespace Gobol

/-! ## Runtime values — src/Bytecode/RuntimeValue.hpp / RuntimeValue.cpp -/

/-- The C++ `enum class Type` of runtime values (named `VType` here because
`Type` is reserved in Lean). -/
inductive VType where
  | NONE | INT | FLOAT | BOOL | STRING | ARRAY
deriving DecidableEq, Repr

/-- The tagged union `vm::RuntimeValue`. -/
inductive RuntimeValue where
  | none
  | int (v : Int)
  | float (v : ℚ)
  | bool (v : Bool)
  | str (v : String)
  | array (elems : List RuntimeValue)

namespace RuntimeValue

/-- RuntimeValue::getType. -/
def getType : RuntimeValue → VType
  | .none => .NONE
  | .int _ => .INT
  | .float _ => .FLOAT
  | .bool _ => .BOOL
  | .str _ => .STRING
  | .array _ => .ARRAY

def isInt : RuntimeValue → Bool
  | .int _ => true
  | _ => false

def isNone : RuntimeValue → Bool
  | .none => true
  | _ => false

def isString : RuntimeValue → Bool
  | .str _ => true
  | _ => false

def isArray : RuntimeValue → Bool
  | .array _ => true
  | _ => false

/-- RuntimeValue::asBoolean.  Note: the C++ switch has cases for
NONE/INT/FLOAT/BOOL/STRING only; `ARRAY` falls through to
`default: return false`. -/
def asBoolean : RuntimeValue → Bool
  | .none => false
  | .int v => v != 0
  | .float v => v != 0
  | .bool v => v
  | .str v => !v.isEmpty
  | .array _ => false

/-- Rendering of a FLOAT by `std::fixed << std::setprecision(6)`:
six decimal digits, rounding to nearest.  Modelled with `round` on ℚ.
(No claim under study evaluates this on a non-integral float.) -/
def fixed6 (q : ℚ) : String :=
  let scaled : Int := round (q * 1000000)
  let neg := decide (scaled < 0)
  let a := scaled.natAbs
  let ip := a / 1000000
  let fp := a % 1000000
  let fpDigits := Nat.toDigits 10 fp
  let padded := List.replicate (6 - fpDigits.length) '0' ++ fpDigits
  (if neg then "-" else "") ++ Nat.repr ip ++ "." ++ String.mk padded

/-- The trailing-zero trimming loop of RuntimeValue::toString for floats:
`while (str.size() > 1 && str.back() == '0') str.pop_back();
 if (str.back() == '.') str.pop_back();`. -/
def trimZeros (s : List Char) : List Char :=
  match s with
  | '0' :: rest => if rest.length ≥ 1 then trimZeros rest else s
  | _ => s

def trimFloatStr (s : String) : String :=
  let r := trimZeros s.data.reverse
  let r := match r with
           | '.' :: rest => rest
           | _ => r
  String.mk r.reverse

/-- RuntimeValue::toString.  ARRAY falls through to `default: return
"unknown"`. -/
def toString : RuntimeValue → String
  | .none => "none"
  | .int v => Int.repr v
  | .float v => trimFloatStr (fixed6 v)
  | .bool v => if v then "true" else "false"
  | .str v => v
  | .array _ => "unknown"

/-- Numeric widening used by ADD/LT/LE/GT/GE:
`x.isInt() ? x.getInt() : x.getFloat()`.  For a value that is neither INT
nor FLOAT, `getFloat` throws — modelled as `none`. -/
def asNum : RuntimeValue → Option ℚ
  | .int v => some (v : ℚ)
  | .float v => some v
  | _ => Option.none

end RuntimeValue

/-! ## Opcodes and instructions — src/unnamed/part_007 (OpCode.hpp) -/

inductive OpCode where
  | LOAD_VAL | LOAD_VAR | STORE_VAL | STORE_VAR
  | ALLOC_ARRAY | ARRAY_GET | ARRAY_SET | ARRAY_LEN
  | LOAD_GLOBAL_VAL | LOAD_GLOBAL_VAR | STORE_GLOBAL_VAL | STORE_GLOBAL_VAR
  | LOAD_CONST
  | ADD | SUB | MUL | DIV
  | LE | LT | GE | GT | EQ | NE
  | JMP | JMP_TRUE | JMP_FALSE
  | SWAP | FORMAT | NOT
  | CALL | RET | BUILTIN
  | HALT
deriving DecidableEq, Repr

/-- opCode::Instruction: an opcode with two optional int operands
(`-1` = absent, as in the C++ field initializers) and a string operand
(`""` = absent). -/
structure Instruction where
  op : OpCode
  intOperand1 : Int
  intOperand2 : Int
  strOperand : String
deriving DecidableEq, Repr

/-- Instruction(OpCode) — no operands. -/
def instr (op : OpCode) : Instruction := ⟨op, -1, -1, ""⟩

/-- Instruction(OpCode, int). -/
def instrI (op : OpCode) (i : Int) : Instruction := ⟨op, i, -1, ""⟩

/-- Instruction(OpCode, std::string). -/
def instrS (op : OpCode) (s : String) : Instruction := ⟨op, -1, -1, s⟩

/-- Instruction(OpCode, int, int). -/
def instrII (op : OpCode) (a b : Int) : Instruction := ⟨op, a, b, ""⟩

/-- Instruction(OpCode, int, std::string). -/
def instrIS (op : OpCode) (i : Int) (s : String) : Instruction := ⟨op, i, -1, s⟩

/-! ## Association-list helpers (model of std::unordered_map) -/

/-- Lookup in an association list. -/
def lookupA {α : Type} : List (String × α) → String → Option α
  | [], _ => Option.none
  | (k, v) :: rest, n => if k = n then some v else lookupA rest n

/-- Overwrite the (unique) existing entry for a key. -/
def setA {α : Type} : List (String × α) → String → α → List (String × α)
  | [], _, _ => []
  | (k, v) :: rest, n, w => if k = n then (k, w) :: rest else (k, v) :: setA rest n w

/-! ## Call frames — src/unnamed/part_004 (CallFrame.cpp/.hpp) -/

structure CallFrame where
  functionName : String
  returnAddress : Int
  varStackSize : Int
  localVars : List (String × RuntimeValue)

namespace CallFrame

/-- CallFrame::declareVariable — fails (and leaves the frame unchanged)
when the name already exists. -/
def declareVariable (f : CallFrame) (n : String) (v : RuntimeValue) :
    Bool × CallFrame :=
  if (lookupA f.localVars n).isSome then (false, f)
  else (true, { f with localVars := (n, v) :: f.localVars })

/-- CallFrame::setVariable — succeeds only when the name already exists. -/
def setVariable (f : CallFrame) (n : String) (v : RuntimeValue) :
    Bool × CallFrame :=
  if (lookupA f.localVars n).isSome then
    (true, { f with localVars := setA f.localVars n v })
  else (false, f)

/-- CallFrame::getVariable. -/
def getVariable (f : CallFrame) (n : String) : Option RuntimeValue :=
  lookupA f.localVars n

/-- CallFrame::hasVariable. -/
def hasVariable (f : CallFrame) (n : String) : Bool :=
  (lookupA f.localVars n).isSome

end CallFrame

/-! ## Bytecode module — src/unnamed/part_003 (BytecodeModule.hpp) with the
implementations from the tail of src/AST/ASTBuilder.hpp.  Only the members
the compiler and VM actually use are modelled (`strings`, `labels` and
`formatPieces` are never touched on any path a claim exercises). -/

structure BytecodeModule where
  code : List Instruction
  constants : List RuntimeValue

/-- BytecodeModule::getConstant — raw `constants[index]`; out-of-range access
is undefined behaviour in C++ and unreachable in compiled code, modelled as
`RuntimeValue.none`. -/
def BytecodeModule.getConstant (m : BytecodeModule) (idx : Int) : RuntimeValue :=
  if idx < 0 then .none else m.constants.getD idx.toNat .none

/-! ## VM state — src/Bytecode/VirtualMachine.hpp/.cpp -/

structure VMState where
  evalStack : List RuntimeValue
  globalStack : List (String × RuntimeValue)
  callStack : List CallFrame
  pc : Int
  running : Bool
  output : List String
  errors : List String

namespace VMState

/-- VirtualMachine::push. -/
def push (s : VMState) (v : RuntimeValue) : VMState :=
  { s with evalStack := v :: s.evalStack }

/-- Append a stderr diagnostic. -/
def logErr (s : VMState) (msg : String) : VMState :=
  { s with errors := s.errors ++ [msg] }

end VMState

/-- VirtualMachine::setVariable — walk the call stack from the top; the
first frame that already binds the name is overwritten.  `none` = every
frame failed (C++ returns false). -/
def setVarFrames : List CallFrame → String → RuntimeValue → Option (List CallFrame)
  | [], _, _ => Option.none
  | f :: fs, n, v =>
    let (ok, f') := f.setVariable n v
    if ok then some (f' :: fs)
    else (setVarFrames fs n v).map (fun fs' => f :: fs')

/-- VirtualMachine::declareVariable — declare in the top frame (no-op when
the call stack is empty, C++ returns false). -/
def declareVarFrames : List CallFrame → String → RuntimeValue → List CallFrame
  | [], _, _ => []
  | f :: fs, n, v => (f.declareVariable n v).2 :: fs

/-- VirtualMachine::getVariable — search frames top-down. -/
def getVarFrames : List CallFrame → String → Option RuntimeValue
  | [], _ => Option.none
  | f :: fs, n =>
    match f.getVariable n with
    | some v => some v
    | Option.none => getVarFrames fs n

/-- VirtualMachine::popArgs — pop `count` values then reverse them back into
left-to-right order.  `none` models the exception thrown by popping an empty
eval stack. -/
def popArgsL : Nat → List RuntimeValue → Option (List RuntimeValue × List RuntimeValue)
  | 0, stack => some ([], stack)
  | n + 1, [] => (fun _ => Option.none) n
  | n + 1, v :: stack =>
    (popArgsL n stack).map (fun (args, rest) => (args ++ [v], rest))

/-- RuntimeValue::createArray for the one-dimensional `ArrayTypeInfo` the VM
builds in ALLOC_ARRAY: `size` copies of the element type's default value. -/
def createArray1 (elementType : VType) (size : Nat) : RuntimeValue :=
  let defaultValue : RuntimeValue :=
    match elementType with
    | .INT => .int 0
    | .FLOAT => .float 0
    | .BOOL => .bool false
    | .STRING => .str ""
    | _ => .none
  .array (List.replicate size defaultValue)

/-! Scan of the FORMAT instruction (the `while (pos < formatStr.length())`
loop): text outside braces is copied verbatim; each placeholder between
braces is replaced by the next argument's string conversion (a missing
argument logs a warning and contributes nothing); an unclosed opening brace
copies the remainder verbatim.  The C++ loop looks ahead with
`find(closing, pos)`; this is restructured as a two-state scanner
(`formatScan` outside braces, `formatScanVar` inside, accumulating the
placeholder's characters in reverse) which produces the identical result
and warning sequence. -/

mutual

/-- Format scanning outside a placeholder. -/
def formatScan (args : List RuntimeValue) :
    List Char → Nat → String × List String
  | [], _ => ("", [])
  | c :: rest, varIndex =>
    if c = '{' then formatScanVar args rest varIndex []
    else
      let (tail, warns) := formatScan args rest varIndex
      (String.mk [c] ++ tail, warns)
termination_by cs _ => cs.length

/-- Format scanning inside a placeholder. -/
def formatScanVar (args : List RuntimeValue) :
    List Char → Nat → List Char → String × List String
  | [], _, revName => (String.mk ('{' :: revName.reverse), [])
  | c :: rest, varIndex, revName =>
    if c = '}' then
      let (tail, warns) := formatScan args rest (varIndex + 1)
      match args[varIndex]? with
      | some a => (a.toString ++ tail, warns)
      | Option.none =>
        (tail, ("Runtime Warning: FORMAT missing value for \x7b" ++
                String.mk revName.reverse ++ "\x7d") :: warns)
    else formatScanVar args rest varIndex (c :: revName)
termination_by cs _ _ => cs.length

end

/-- The builtin table built by VirtualMachine::initBuiltins: only `print`,
which writes its arguments separated by single spaces (no newline) and
returns `None`. -/
def printJoin (args : List RuntimeValue) : String :=
  String.intercalate " " (args.map RuntimeValue.toString)

/-- VirtualMachine::callFunction — pops the arguments, pushes a new frame
binding them to `p0, p1, ...`, saves the return address, and — as in the
source — never changes `pc` (the jump to the callee entry is missing). -/
def callFunction (s : VMState) (name : String) (argCount : Nat) : Option VMState :=
  (popArgsL argCount s.evalStack).map (fun (args, rest) =>
    let returnAddr := s.pc
    let currentVarSize : Int :=
      match s.callStack with
      | [] => 0
      | f :: _ => f.varStackSize
    let frame0 : CallFrame := ⟨name, returnAddr, currentVarSize + 1, []⟩
    let frame := (List.range args.length).foldl
      (fun f i =>
        (f.declareVariable ("p" ++ Nat.repr i) (args.getD i .none)).2)
      frame0
    { s with evalStack := rest, callStack := frame :: s.callStack })

/-- VirtualMachine::returnFromFunction. -/
def returnFromFunction (s : VMState) : Option VMState :=
  match s.callStack with
  | [] => some (s.logErr "Runtime Error: return from empty call stack")
  | frame :: restFrames =>
    match s.evalStack with
    | [] => Option.none
    | retVal :: restStack =>
      if restFrames.isEmpty then
        some { s with evalStack := retVal :: restStack, callStack := restFrames,
                      pc := -1 }
      else
        some { s with evalStack := retVal :: restStack, callStack := restFrames,
                      pc := frame.returnAddress }

/-- VirtualMachine::execute — the big opcode switch.  `none` models a C++
exception escaping (pop from an empty eval stack, or `getFloat`/`getInt` on
the wrong variant inside the arithmetic widening).  Note that the source has
*no cases* for SUB, MUL, DIV and JMP_TRUE: they fall through to
`default: "Runtime Error: Unknown opcode"`. -/
def execute (m : BytecodeModule) (i : Instruction) (s : VMState) : Option VMState :=
  match i.op with
  | .LOAD_CONST =>
    some (s.push (m.getConstant i.intOperand1))
  | .LOAD_VAL | .LOAD_VAR =>
    let name := i.strOperand
    match getVarFrames s.callStack name with
    | some v => some (s.push v)
    | Option.none =>
      some ((s.logErr ("Runtime Error: Undefined variable '" ++ name ++ "'")).push .none)
  | .ALLOC_ARRAY =>
    match s.evalStack with
    | typeVal :: sizeVal :: rest =>
      let s := { s with evalStack := rest }
      match sizeVal with
      | .int size =>
        if size < 0 then
          some ((s.logErr "Runtime Error: Array size cannot be negative").push .none)
        else
          let elementType : VType :=
            match typeVal with
            | .int 0 => .INT
            | .int 1 => .FLOAT
            | .int 2 => .BOOL
            | .int 3 => .STRING
            | _ => .INT
          some (s.push (createArray1 elementType size.toNat))
      | _ => some ((s.logErr "Runtime Error: Array size must be integer").push .none)
    | _ => Option.none
  | .ARRAY_GET =>
    match s.evalStack with
    | indexVal :: arrayVal :: rest =>
      let s := { s with evalStack := rest }
      match arrayVal with
      | .array elems =>
        match indexVal with
        | .int index =>
          if index < 0 ∨ index ≥ (elems.length : Int) then
            some ((s.logErr ("Runtime Error: Array index out of bounds: " ++
              Int.repr index ++ " (size=" ++ Nat.repr elems.length ++ ")")).push .none)
          else
            some (s.push (elems.getD index.toNat .none))
        | _ => some ((s.logErr "Runtime Error: Array index must be integer").push .none)
      | _ => some ((s.logErr "Runtime Error: Cannot index non-array value").push .none)
    | _ => Option.none
  | .ARRAY_SET =>
    match s.evalStack with
    | valueVal :: indexVal :: arrayVal :: rest =>
      let s := { s with evalStack := rest }
      match arrayVal with
      | .array elems =>
        match indexVal with
        | .int index =>
          if index < 0 ∨ index ≥ (elems.length : Int) then
            some ((s.logErr ("Runtime Error: Array index out of bounds: " ++
              Int.repr index ++ " (size=" ++ Nat.repr elems.length ++ ")")).push .none)
          else
            some (s.push (.array (elems.set index.toNat valueVal)))
        | _ => some ((s.logErr "Runtime Error: Array index must be integer").push .none)
      | _ => some ((s.logErr "Runtime Error: Cannot index non-array value").push .none)
    | _ => Option.none
  | .ARRAY_LEN =>
    match s.evalStack with
    | arrayVal :: rest =>
      let s := { s with evalStack := rest }
      match arrayVal with
      | .array elems => some (s.push (.int elems.length))
      | _ =>
        some ((s.logErr "Runtime Error: Cannot get length of non-array value").push .none)
    | _ => Option.none
  | .LOAD_GLOBAL_VAL | .LOAD_GLOBAL_VAR =>
    let name := i.strOperand
    match lookupA s.globalStack name with
    | some v => some (s.push v)
    | Option.none =>
      some ((s.logErr ("Runtime Error: Undefined global '" ++ name ++ "'")).push .none)
  | .STORE_VAL | .STORE_VAR =>
    match s.evalStack with
    | val :: rest =>
      let s := { s with evalStack := rest }
      match setVarFrames s.callStack i.strOperand val with
      | some fs => some { s with callStack := fs }
      | Option.none =>
        some { s with callStack := declareVarFrames s.callStack i.strOperand val }
    | _ => Option.none
  | .STORE_GLOBAL_VAL | .STORE_GLOBAL_VAR =>
    match s.evalStack with
    | val :: rest =>
      let name := i.strOperand
      let s := { s with evalStack := rest }
      some { s with globalStack :=
        if (lookupA s.globalStack name).isSome then setA s.globalStack name val
        else s.globalStack ++ [(name, val)] }
    | _ => Option.none
  | .ADD =>
    match s.evalStack with
    | right :: left :: rest =>
      let s := { s with evalStack := rest }
      if left.isNone ∨ right.isNone then
        some ((s.logErr "Runtime Error: Cannot add none value").push .none)
      else
        match left, right with
        | .int l, .int r => some (s.push (.int (l + r)))
        | _, _ =>
          match left.asNum, right.asNum with
          | some l, some r => some (s.push (.float (l + r)))
          | _, _ => Option.none
    | _ => Option.none
  | .JMP =>
    some { s with pc := i.intOperand1 }
  | .JMP_FALSE =>
    match s.evalStack with
    | cond :: rest =>
      let s := { s with evalStack := rest }
      if cond.asBoolean then some s else some { s with pc := i.intOperand1 }
    | _ => Option.none
  | .CALL =>
    callFunction s i.strOperand i.intOperand1.toNat
  | .RET =>
    returnFromFunction s
  | .BUILTIN =>
    match popArgsL i.intOperand1.toNat s.evalStack with
    | some (args, rest) =>
      let s := { s with evalStack := rest }
      if i.strOperand = "print" then
        some ({ s with output := s.output ++ [printJoin args] }.push .none)
      else
        some ((s.logErr ("Runtime Error: Unknown builtin '" ++ i.strOperand ++ "'")).push .none)
    | Option.none => Option.none
  | .NOT =>
    match s.evalStack with
    | [] => some ((s.logErr "Runtime Error: NOT requires operand").push .none)
    | val :: rest =>
      some { s with evalStack := .bool (!val.asBoolean) :: rest }
  | .SWAP =>
    match s.evalStack with
    | a :: b :: rest => some { s with evalStack := b :: a :: rest }
    | _ => some ((s.logErr "Runtime Error: SWAP requires 2 operands").push .none)
  | .LT =>
    match s.evalStack with
    | right :: left :: rest =>
      let s := { s with evalStack := rest }
      if left.isNone ∨ right.isNone then
        some ((s.logErr "Runtime Error: Cannot compare none").push (.bool false))
      else
        match left.asNum, right.asNum with
        | some l, some r => some (s.push (.bool (decide (l < r))))
        | _, _ => Option.none
    | _ => Option.none
  | .LE =>
    match s.evalStack with
    | right :: left :: rest =>
      let s := { s with evalStack := rest }
      if left.isNone ∨ right.isNone then
        some ((s.logErr "Runtime Error: Cannot compare none").push (.bool false))
      else
        match left.asNum, right.asNum with
        | some l, some r => some (s.push (.bool (decide (l ≤ r))))
        | _, _ => Option.none
    | _ => Option.none
  | .GT =>
    match s.evalStack with
    | right :: left :: rest =>
      let s := { s with evalStack := rest }
      if left.isNone ∨ right.isNone then
        some ((s.logErr "Runtime Error: Cannot compare none").push (.bool false))
      else
        match left.asNum, right.asNum with
        | some l, some r => some (s.push (.bool (decide (l > r))))
        | _, _ => Option.none
    | _ => Option.none
  | .GE =>
    match s.evalStack with
    | right :: left :: rest =>
      let s := { s with evalStack := rest }
      if left.isNone ∨ right.isNone then
        some ((s.logErr "Runtime Error: Cannot compare none").push (.bool false))
      else
        match left.asNum, right.asNum with
        | some l, some r => some (s.push (.bool (decide (l ≥ r))))
        | _, _ => Option.none
    | _ => Option.none
  | .EQ =>
    match s.evalStack with
    | right :: left :: rest =>
      let s := { s with evalStack := rest }
      if left.isNone ∨ right.isNone then
        some (s.push (.bool (left.isNone ∧ right.isNone)))
      else if left.getType ≠ right.getType then
        some (s.push (.bool false))
      else
        match left, right with
        | .int l, .int r => some (s.push (.bool (decide (l = r))))
        | .float l, .float r => some (s.push (.bool (decide (l = r))))
        | .bool l, .bool r => some (s.push (.bool (l = r)))
        | .str l, .str r => some (s.push (.bool (l = r)))
        | _, _ => some (s.push (.bool false))
    | _ => Option.none
  | .NE =>
    match s.evalStack with
    | right :: left :: rest =>
      let s := { s with evalStack := rest }
      if left.isNone ∨ right.isNone then
        some (s.push (.bool (!(left.isNone ∧ right.isNone))))
      else if left.getType ≠ right.getType then
        some (s.push (.bool true))
      else
        match left, right with
        | .int l, .int r => some (s.push (.bool (decide (l ≠ r))))
        | .float l, .float r => some (s.push (.bool (decide (l ≠ r))))
        | .bool l, .bool r => some (s.push (.bool (l ≠ r)))
        | .str l, .str r => some (s.push (.bool (l ≠ r)))
        | _, _ => some (s.push (.bool true))
    | _ => Option.none
  | .FORMAT =>
    let strIdx := i.intOperand1
    let argCount := i.intOperand2
    if strIdx < 0 ∨ strIdx ≥ (m.constants.length : Int) then
      some ((s.logErr ("Runtime Error: Invalid format string index " ++
        Int.repr strIdx)).push .none)
    else
      match m.getConstant strIdx with
      | .str formatStr =>
        if (s.evalStack.length : Int) < argCount then
          some ((s.logErr ("Runtime Error: FORMAT missing arguments. Need " ++
            Int.repr argCount ++ ", have " ++ Nat.repr s.evalStack.length)).push .none)
        else
          match popArgsL argCount.toNat s.evalStack with
          | some (args, rest) =>
            let s := { s with evalStack := rest }
            let (result, warns) := formatScan args formatStr.data 0
            some ({ s with errors := s.errors ++ warns }.push (.str result))
          | Option.none => Option.none
      | fv =>
        some ((s.logErr ("Runtime Error: FORMAT expected string, got " ++
          Nat.repr (match fv.getType with
                    | .NONE => 0 | .INT => 1 | .FLOAT => 2
                    | .BOOL => 3 | .STRING => 4 | .ARRAY => 5))).push .none)
  | .HALT =>
    some { s with running := false }
  | _ =>
    some (s.logErr "Runtime Error: Unknown opcode")

/-- One iteration of VirtualMachine::run's main loop: fetch the instruction
at `pc`, increment `pc`, then execute. -/
def vmStep (m : BytecodeModule) (s : VMState) : Option VMState :=
  match m.code[s.pc.toNat]? with
  | some i => execute m i { s with pc := s.pc + 1 }
  | Option.none => Option.none

/-- The main loop `while (running && pc >= 0 && pc < code.size())`, with
fuel.  `none` = out of fuel or a C++ exception escaped. -/
def runLoop (m : BytecodeModule) : Nat → VMState → Option VMState
  | 0, s =>
    if s.running ∧ 0 ≤ s.pc ∧ s.pc < (m.code.length : Int) then Option.none
    else some s
  | fuel + 1, s =>
    if s.running ∧ 0 ≤ s.pc ∧ s.pc < (m.code.length : Int) then
      match vmStep m s with
      | some s' => runLoop m fuel s'
      | Option.none => Option.none
    else some s

/-- VirtualMachine::run: push the pre-created `"global"` frame, loop, then
pop every remaining frame. -/
def vmRun (m : BytecodeModule) (fuel : Nat) : Option VMState :=
  let s0 : VMState := ⟨[], [], [⟨"global", 0, 0, []⟩], 0, true, [], []⟩
  (runLoop m fuel s0).map (fun s => { s with callStack := [] })

/-! ## AST — src/AST/AST.hpp.  Expression and statement node variants with
the attributes the compiler and analyzer read (source locations and the
visitor plumbing are irrelevant to the claims and omitted).  The
`FormatString` node carries its raw text and its already-extracted
placeholder list (`VariablePosition {posInValue, value}`). -/

mutual

inductive Expr where
  | numberLit (v : ℚ)
  | stringLit (v : String)
  | booleanLit (v : Bool)
  | formatString (raw : String) (vars : List FormatVar)
  | identifier (name : String)
  | binary (l : Expr) (op : String) (r : Expr)
  | unary (op : String) (operand : Expr)
  | call (callee : Expr) (args : List Expr)
  | memberAccess (obj : Expr) (member : String)
  | arrayIndex (arr : Expr) (idx : Expr)
  | grouped (e : Expr)
  | range (args : List Expr)

/-- AST::FormatString::VariablePosition. -/
inductive FormatVar where
  | mk (posInValue : Int) (value : Expr)

end

inductive TypeNode where
  | named (name : String)
  | arrayType (elemName : String) (size : Expr)

structure Param where
  name : String
  ty : Option TypeNode

inductive Stmt where
  | importStmt (moduleName : String)
  | moduleStmt (moduleName : String)
  | functionDef (name : String) (params : List Param)
      (returnType : Option TypeNode) (body : Stmt)
  | block (stmts : List Stmt)
  | declaration (keyword : String) (name : String)
      (tyOpt : Option TypeNode) (init : Option Expr)
  | ifStmt (cond : Expr) (thenB : Stmt) (elseB : Option Stmt)
  | whileStmt (cond : Expr) (body : Stmt)
  | forStmt (loopVar : String) (iterable : Expr) (body : Stmt)
  | returnStmt (value : Option Expr)
  | breakStmt
  | continueStmt
  | exprStmt (e : Expr)

/-! ## Bytecode compiler — src/Bytecode/Compiler.hpp and src/unnamed/part_005
(Compiler.cpp).  The compiler state carries the module being built plus the
fields of `vm::Compiler` that the visitors touch.  `pendingPatches` is
omitted: nothing in the source ever inserts into it, so the patch loop at
the end of `Compiler::compile` is a no-op.  `valueStack`, `labels` and
`formatStrings` are likewise never read on any emission path. -/

/-- Generic association-list lookup for the compiler's typed constant
caches. -/
def lookupK {κ α : Type} [DecidableEq κ] : List (κ × α) → κ → Option α
  | [], _ => Option.none
  | (k, v) :: rest, n => if k = n then some v else lookupK rest n

structure FunctionInfo where
  name : String
  params : List String
  entryPoint : Int
  isDefined : Bool

structure CState where
  code : List Instruction
  constants : List RuntimeValue
  breakTargets : List Int
  continueTargets : List Int
  loopDepth : Int
  functions : List (String × FunctionInfo)
  currentFunction : String
  intConstants : List (Int × Int)
  floatConstants : List (ℚ × Int)
  boolConstants : List (Bool × Int)
  stringConstants : List (String × Int)
  cerrors : List String

/-- The state `Compiler::compile` starts from (module fresh, every cache and
stack cleared). -/
def compileInit : CState := ⟨[], [], [], [], 0, [], "", [], [], [], [], []⟩

namespace CState

/-- Compiler::addConstant — per-type deduplication caches in front of
BytecodeModule::addConstant (which appends and returns the new index).
Values whose type has no cache (NONE, ARRAY) are appended unconditionally. -/
def addConstant (st : CState) (value : RuntimeValue) : Int × CState :=
  match value with
  | .int v =>
    match lookupK st.intConstants v with
    | some idx => (idx, st)
    | Option.none =>
      let idx : Int := st.constants.length
      (idx, { st with constants := st.constants ++ [value],
                      intConstants := st.intConstants ++ [(v, idx)] })
  | .float v =>
    match lookupK st.floatConstants v with
    | some idx => (idx, st)
    | Option.none =>
      let idx : Int := st.constants.length
      (idx, { st with constants := st.constants ++ [value],
                      floatConstants := st.floatConstants ++ [(v, idx)] })
  | .bool v =>
    match lookupK st.boolConstants v with
    | some idx => (idx, st)
    | Option.none =>
      let idx : Int := st.constants.length
      (idx, { st with constants := st.constants ++ [value],
                      boolConstants := st.boolConstants ++ [(v, idx)] })
  | .str v =>
    match lookupK st.stringConstants v with
    | some idx => (idx, st)
    | Option.none =>
      let idx : Int := st.constants.length
      (idx, { st with constants := st.constants ++ [value],
                      stringConstants := st.stringConstants ++ [(v, idx)] })
  | _ =>
    let idx : Int := st.constants.length
    (idx, { st with constants := st.constants ++ [value] })

/-- Compiler::emit via BytecodeModule::addInstruction (append). -/
def emit (st : CState) (i : Instruction) : CState :=
  { st with code := st.code ++ [i] }

/-- BytecodeModule::getCurrentPosition. -/
def getCurrentPosition (st : CState) : Int := st.code.length

/-- Compiler::emitJump — remember the position, emit the jump with a zero
placeholder. -/
def emitJump (st : CState) (op : OpCode) : Int × CState :=
  (st.getCurrentPosition, st.emit (instrI op 0))

/-- BytecodeModule::patchJump — replace the instruction in place by
`Instruction(oldOp, targetAddress, oldStrOperand)` (note: this constructor
leaves `intOperand2` at its default `-1`). -/
def patchJump (st : CState) (instructionIndex targetAddress : Int) : CState :=
  if 0 ≤ instructionIndex ∧ instructionIndex < (st.code.length : Int) then
    let old := st.code.getD instructionIndex.toNat (instr .HALT)
    let newCode := st.code.set instructionIndex.toNat (instrIS old.op targetAddress old.strOperand)
    { st with code := newCode }
  else st

/-- Compiler::enterLoop. -/
def enterLoop (st : CState) (continueAddr breakAddr : Int) : CState :=
  { st with loopDepth := st.loopDepth + 1,
            continueTargets := continueAddr :: st.continueTargets,
            breakTargets := breakAddr :: st.breakTargets }

/-- Compiler::exitLoop. -/
def exitLoop (st : CState) : CState :=
  { st with loopDepth := st.loopDepth - 1,
            continueTargets := st.continueTargets.tail,
            breakTargets := st.breakTargets.tail }

/-- Compiler::beginFunction. -/
def beginFunction (st : CState) (name : String) (params : List String) : CState :=
  let info : FunctionInfo := ⟨name, params, st.getCurrentPosition, true⟩
  let functions :=
    if (lookupK st.functions name).isSome then
      st.functions.map (fun p => if p.1 = name then (name, info) else p)
    else st.functions ++ [(name, info)]
  { st with currentFunction := name, functions := functions }

/-- Compiler::endFunction. -/
def endFunction (st : CState) : CState := { st with currentFunction := "" }

/-- Append a compile-time stderr diagnostic. -/
def cerr (st : CState) (msg : String) : CState :=
  { st with cerrors := st.cerrors ++ [msg] }

end CState

/-- The opcode for a non-assignment binary operator
(Compiler::visit(BinaryExpression), else-if chain). -/
def binOpCode (op : String) : Option OpCode :=
  if op = "+" then some .ADD
  else if op = "-" then some .SUB
  else if op = "*" then some .MUL
  else if op = "/" then some .DIV
  else if op = "<" then some .LT
  else if op = "<=" then some .LE
  else if op = ">" then some .GT
  else if op = ">=" then some .GE
  else if op = "==" then some .EQ
  else if op = "!=" then some .NE
  else Option.none

/-- The element type code of Compiler::visit(Declaration) for array types:
int=0, float=1, bool=2, str=3, default 0. -/
def elemTypeCode (elemName : String) : Int :=
  if elemName = "int" then 0
  else if elemName = "float" then 1
  else if elemName = "bool" then 2
  else if elemName = "str" then 3
  else 0

mutual

/-- The expression cases of the Compiler visitor (src/unnamed/part_005). -/
def compileExpr (st : CState) : Expr → CState
  | .numberLit v =>
    if v.den = 1 then
      let (idx, st1) := st.addConstant (.int v.num)
      st1.emit (instrI .LOAD_CONST idx)
    else
      let (idx, st1) := st.addConstant (.float v)
      st1.emit (instrI .LOAD_CONST idx)
  | .stringLit v =>
    let (idx, st1) := st.addConstant (.str v)
    st1.emit (instrI .LOAD_CONST idx)
  | .booleanLit v =>
    let (idx, st1) := st.addConstant (.bool v)
    st1.emit (instrI .LOAD_CONST idx)
  | .formatString raw vars =>
    let (strIdx, st1) := st.addConstant (.str raw)
    let st2 := st1.emit (instrI .LOAD_CONST strIdx)
    let st3 := compileFormatVars st2 vars
    st3.emit (instrII .FORMAT strIdx vars.length)
  | .identifier name => st.emit (instrS .LOAD_VAR name)
  | .binary l op r =>
    if op = "=" then
      match l with
      | .arrayIndex arrE idxE =>
        let arrName := match arrE with | .identifier n => n | _ => ""
        let st1 := compileExpr st arrE
        let st2 := compileExpr st1 idxE
        let st3 := compileExpr st2 r
        let st4 := st3.emit (instr .ARRAY_SET)
        if arrName ≠ "" then st4.emit (instrS .STORE_VAR arrName) else st4
      | .identifier n => (compileExpr st r).emit (instrS .STORE_VAR n)
      | _ =>
        st.cerr "Compile Error: Left side of assignment must be identifier or array element"
    else
      let st1 := compileExpr st l
      let st2 := compileExpr st1 r
      match binOpCode op with
      | some oc => st2.emit (instr oc)
      | Option.none => st2.cerr ("Compile Error: Unknown operator " ++ op)
  | .unary op operand =>
    let st1 := compileExpr st operand
    if op = "-" then
      let (idx, st2) := st1.addConstant (.int 0)
      (((st2.emit (instrI .LOAD_CONST idx)).emit (instr .SWAP)).emit (instr .SUB))
    else if op = "!" then st1.emit (instr .NOT)
    else st1
  | .call callee args =>
    let funcName :=
      match callee with
      | .identifier n => n
      | .memberAccess obj member =>
        (match obj with
         | .identifier o => o ++ "." ++ member
         | _ => "")
      | _ => ""
    let st1 := compileExprList st args
    let argCount : Int := args.length
    if funcName = "print" ∨ funcName = "io.print" then
      st1.emit (instrIS .BUILTIN argCount "print")
    else
      st1.emit (instrIS .CALL argCount funcName)
  | .memberAccess _ _ => st
  | .grouped e => compileExpr st e
  | .arrayIndex arrE idxE =>
    ((compileExpr (compileExpr st arrE) idxE).emit (instr .ARRAY_GET))
  | .range args =>
    let st1 := compileExprList st args
    if args.length = 2 then
      let (idx, st2) := st1.addConstant (.int 1)
      st2.emit (instrI .LOAD_CONST idx)
    else st1
termination_by structural e => e

/-- Sequential emission of a list of argument expressions. -/
def compileExprList (st : CState) : List Expr → CState
  | [] => st
  | e :: es => compileExprList (compileExpr st e) es
termination_by structural es => es

/-- Sequential emission of a FormatString's placeholder expressions. -/
def compileFormatVars (st : CState) : List FormatVar → CState
  | [] => st
  | .mk _ v :: vs => compileFormatVars (compileExpr st v) vs
termination_by structural vs => vs

end

mutual

/-- The statement cases of the Compiler visitor (src/unnamed/part_005). -/
def compileStmt (st : CState) : Stmt → CState
  | .importStmt _ => st
  | .moduleStmt _ => st
  | .block stmts => compileStmtList st stmts
  | .declaration keyword name tyOpt init =>
    let isVar := keyword = "var"
    match tyOpt with
    | some (.arrayType elemName sizeE) =>
      let st1 := compileExpr st sizeE
      let (idx, st2) := st1.addConstant (.int (elemTypeCode elemName))
      let st3 := (st2.emit (instrI .LOAD_CONST idx)).emit (instr .ALLOC_ARRAY)
      st3.emit (instrS (if isVar then .STORE_VAR else .STORE_VAL) name)
    | _ =>
      let st1 :=
        match init with
        | some e => compileExpr st e
        | Option.none =>
          let (idx, st') := st.addConstant .none
          st'.emit (instrI .LOAD_CONST idx)
      st1.emit (instrS (if isVar then .STORE_VAR else .STORE_VAL) name)
  | .exprStmt e => compileExpr st e
  | .ifStmt cond thenB elseB =>
    let st1 := compileExpr st cond
    let (elseJump, st2) := st1.emitJump .JMP_FALSE
    let st3 := compileStmt st2 thenB
    (match elseB with
     | some eb =>
       let (endJump, st4) := st3.emitJump .JMP
       let st5 := st4.patchJump elseJump st4.getCurrentPosition
       let st6 := compileStmt st5 eb
       st6.patchJump endJump st6.getCurrentPosition
     | Option.none => st3.patchJump elseJump st3.getCurrentPosition)
  | .whileStmt cond body =>
    let loopStart := st.getCurrentPosition
    let st1 := compileExpr st cond
    let (exitJump, st2) := st1.emitJump .JMP_FALSE
    let st3 := st2.enterLoop loopStart st2.getCurrentPosition
    let st4 := compileStmt st3 body
    let st5 := st4.emit (instrI .JMP loopStart)
    let st6 := st5.exitLoop
    st6.patchJump exitJump st6.getCurrentPosition
  | .forStmt loopVar iterable body =>
    let st1 := compileExpr st iterable
    let st2 := ((st1.emit (instrS .STORE_VAR "_step")).emit
      (instrS .STORE_VAR "_end")).emit (instrS .STORE_VAR loopVar)
    let loopStart := st2.getCurrentPosition
    let st3 := ((st2.emit (instrS .LOAD_VAR loopVar)).emit
      (instrS .LOAD_VAR "_end")).emit (instr .LT)
    let (exitJump, st4) := st3.emitJump .JMP_FALSE
    let st5 := st4.enterLoop st4.getCurrentPosition st4.getCurrentPosition
    let st6 := compileStmt st5 body
    let st7 := ((((st6.emit (instrS .LOAD_VAR loopVar)).emit
      (instrS .LOAD_VAR "_step")).emit (instr .ADD)).emit
      (instrS .STORE_VAR loopVar)).emit (instrI .JMP loopStart)
    let st8 := st7.exitLoop
    st8.patchJump exitJump st8.getCurrentPosition
  | .returnStmt value =>
    let st1 :=
      match value with
      | some e => compileExpr st e
      | Option.none =>
        let (idx, st') := st.addConstant .none
        st'.emit (instrI .LOAD_CONST idx)
    st1.emit (instr .RET)
  | .breakStmt =>
    if st.loopDepth > 0 ∧ st.breakTargets ≠ [] then
      st.emit (instrI .JMP (st.breakTargets.headD 0))
    else st.cerr "Compile Error: break outside loop"
  | .continueStmt =>
    if st.loopDepth > 0 ∧ st.continueTargets ≠ [] then
      st.emit (instrI .JMP (st.continueTargets.headD 0))
    else st.cerr "Compile Error: continue outside loop"
  | .functionDef name params _ body =>
    let st1 := st.beginFunction name (params.map Param.name)
    let st2 := compileStmt st1 body
    let needsRet :=
      match st2.code.getLast? with
      | Option.none => true
      | some last => last.op ≠ .RET
    let st3 :=
      if needsRet then
        let (idx, st') := st2.addConstant (.int 0)
        (st'.emit (instrI .LOAD_CONST idx)).emit (instr .RET)
      else st2
    st3.endFunction
termination_by structural s => s

/-- Sequential compilation of a statement list (Program and Block bodies). -/
def compileStmtList (st : CState) : List Stmt → CState
  | [] => st
  | s :: ss => compileStmtList (compileStmt st s) ss
termination_by structural ss => ss

end

/-- Compiler::compile on a Program node: reset the state, visit every
statement, append the final HALT.  (The `pendingPatches` loop is a no-op:
nothing in the source ever adds an entry.) -/
def compileProgramState (stmts : List Stmt) : CState :=
  (compileStmtList compileInit stmts).emit (instr .HALT)

/-- The bytecode module handed to the VM. -/
def compileProgram (stmts : List Stmt) : BytecodeModule :=
  let st := compileProgramState stmts
  ⟨st.code, st.constants⟩

/-! ## Semantic analyzer — src/Environment/Environment.hpp (the extended
second header in that file) together with the `analyzer::SemanticAnalyzer`
implementation appended to it, and the Environment implementation at the
tail of src/Bytecode/VirtualMachine.hpp.  `Symbol`'s array/mutability fields
are never read on any path a claim exercises and are omitted.  Diagnostics
that Environment prints directly to stderr are not collected (only the
analyzer's own `errors` vector, filled by `SemanticAnalyzer::error`, decides
`hasError`). -/

inductive DataType where
  | INT | FLOAT | STR | BOOL | NONE | UNKNOWN
deriving DecidableEq, Repr

inductive SymbolType where
  | VARIABLE | FUNCTION | MODULE
deriving DecidableEq, Repr

structure Symbol where
  name : String
  symType : SymbolType
  dataType : DataType
  scopeLevel : Int
  moduleName : String
deriving DecidableEq, Repr

/-- env::dataTypeToString. -/
def dataTypeToString : DataType → String
  | .INT => "int"
  | .FLOAT => "float"
  | .STR => "str"
  | .BOOL => "bool"
  | .NONE => "none"
  | .UNKNOWN => "unknown"

/-- env::Environment — a stack of scopes; index 0 (the list head is *not*
the top here: the list is kept in the same order as the C++ vector, so the
global scope is the head and the current scope is the last element). -/
structure Env where
  scopes : List (List (String × Symbol))
deriving DecidableEq, Repr

/-- The Environment constructor: one (global) scope. -/
def envInit : Env := ⟨[[]]⟩

/-- Replace the last element of a list (the C++ `scopes.back()`). -/
def modifyLast {α : Type} (f : α → α) : List α → List α
  | [] => []
  | [x] => [f x]
  | x :: xs => x :: modifyLast f xs

namespace Env

/-- Environment::enterScope. -/
def enterScope (e : Env) : Env := ⟨e.scopes ++ [[]]⟩

/-- Environment::exitScope. -/
def exitScope (e : Env) : Env := ⟨e.scopes.dropLast⟩

/-- Environment::declareVariable — fails when the name exists in the
*current* (last) scope. -/
def declareVariable (e : Env) (name : String) (ty : DataType) : Bool × Env :=
  let scopes := if e.scopes.isEmpty then [[]] else e.scopes
  let current := scopes.getLastD []
  if (lookupA current name).isSome then (false, ⟨scopes⟩)
  else
    let sym : Symbol := ⟨name, .VARIABLE, ty, (scopes.length : Int) - 1, ""⟩
    (true, ⟨modifyLast (fun sc => sc ++ [(name, sym)]) scopes⟩)

/-- Environment::declareFunction — global scope, key `module.name`. -/
def declareFunction (e : Env) (name : String) (returnType : DataType)
    (moduleName : String) : Bool × Env :=
  let scopes := if e.scopes.isEmpty then [[]] else e.scopes
  let fullName := moduleName ++ "." ++ name
  let globalScope := scopes.headD []
  if (lookupA globalScope fullName).isSome then (false, ⟨scopes⟩)
  else
    let sym : Symbol := ⟨name, .FUNCTION, returnType, 0, moduleName⟩
    (true, ⟨scopes.modifyHead (fun sc => sc ++ [(fullName, sym)])⟩)

/-- Environment::declareModule — global scope; an existing module of the
same name is accepted, any other existing symbol is an error. -/
def declareModule (e : Env) (name : String) : Bool × Env :=
  let scopes := if e.scopes.isEmpty then [[]] else e.scopes
  let globalScope := scopes.headD []
  match lookupA globalScope name with
  | some sym =>
    if sym.symType ≠ .MODULE then (false, ⟨scopes⟩) else (true, ⟨scopes⟩)
  | Option.none =>
    let sym : Symbol := ⟨name, .MODULE, .NONE, 0, ""⟩
    (true, ⟨scopes.modifyHead (fun sc => sc ++ [(name, sym)])⟩)

/-- Environment::lookupSymbol — search from the current scope down to the
global one. -/
def lookupSymbol (e : Env) (name : String) : Option Symbol :=
  e.scopes.reverse.findSome? (fun sc => lookupA sc name)

end Env

/-- Environment::isTypeCompatible. -/
def isTypeCompatible (target source : DataType) : Bool :=
  if target = source then true
  else if target = .FLOAT ∧ source = .INT then true
  else false

/-- Environment::isNumericType. -/
def isNumericType (t : DataType) : Bool := t = .INT ∨ t = .FLOAT

/-- The analyzer state: the fields of analyzer::SemanticAnalyzer. -/
structure AState where
  env : Env
  errors : List String
  hasError : Bool
  currentFunction : String
  currentFunctionReturnType : DataType
  hasReturnStatement : Bool
  loopDepth : Int
  currentModule : String
  typeStack : List DataType
deriving DecidableEq, Repr

namespace AState

/-- SemanticAnalyzer::error. -/
def error (a : AState) (msg : String) : AState :=
  { a with errors := a.errors ++ [msg], hasError := true }

/-- SemanticAnalyzer::getCurrentType — top of the type stack, UNKNOWN when
empty. -/
def getCurrentType (a : AState) : DataType := a.typeStack.headD .UNKNOWN

/-- Push onto the type stack. -/
def pushT (a : AState) (t : DataType) : AState :=
  { a with typeStack := t :: a.typeStack }

/-- Pop the type stack (`std::stack::pop`; popping an empty stack is UB in
C++ and modelled as a no-op — it never happens on a claim's path). -/
def popT (a : AState) : AState := { a with typeStack := a.typeStack.tail }

/-- SemanticAnalyzer::getDataTypeFromAST (a null `AST::Type*` yields NONE;
`ArrayType::getName` is the element type's name). -/
def getDataTypeFromAST (a : AState) : Option TypeNode → DataType × AState
  | Option.none => (.NONE, a)
  | some t =>
    let name := match t with | .named n => n | .arrayType n _ => n
    if name = "int" then (.INT, a)
    else if name = "float" then (.FLOAT, a)
    else if name = "str" then (.STR, a)
    else if name = "bool" then (.BOOL, a)
    else (.UNKNOWN, a.error ("Unknown type: " ++ name))

/-- SemanticAnalyzer::checkTypeCompatibility. -/
def checkTypeCompatibility (a : AState) (target source : DataType)
    (context : String) : AState :=
  if isTypeCompatible target source then a
  else a.error ("Type mismatch in " ++ context ++ ": expected " ++
    dataTypeToString target ++ ", got " ++ dataTypeToString source)

end AState

mutual

/-- The expression cases of the SemanticAnalyzer visitor. -/
def visitExpr (a : AState) : Expr → AState
  | .identifier name =>
    let full1 := a.currentModule ++ "." ++ name
    (match a.env.lookupSymbol full1 with
     | some sym => a.pushT sym.dataType
     | Option.none =>
       match a.env.lookupSymbol ("__builtins__." ++ name) with
       | some sym => a.pushT sym.dataType
       | Option.none =>
         match a.env.lookupSymbol name with
         | some sym => a.pushT sym.dataType
         | Option.none =>
           (a.error ("Undeclared identifier: '" ++ name ++ "'")).pushT .UNKNOWN)
  | .numberLit v =>
    if v.den = 1 then a.pushT .INT else a.pushT .FLOAT
  | .stringLit _ => a.pushT .STR
  | .booleanLit _ => a.pushT .BOOL
  | .formatString _ vars => (visitFmtVars a vars).pushT .STR
  | .binary l op r =>
    let a1 := visitExpr a l
    let leftType := a1.getCurrentType
    let a2 := a1.popT
    let a3 := visitExpr a2 r
    let rightType := a3.getCurrentType
    let a4 := a3.popT
    if op = "=" then
      let a5 :=
        match l with
        | .identifier _ => a4
        | _ => a4.error "Left side of assignment must be a variable"
      let a6 :=
        if isTypeCompatible leftType rightType then a5
        else a5.error ("Cannot assign " ++ dataTypeToString rightType ++
          " to " ++ dataTypeToString leftType)
      a6.pushT leftType
    else if op = "+" ∨ op = "-" ∨ op = "*" ∨ op = "/" ∨ op = "%" then
      if op = "+" ∧ (leftType = .STR ∨ rightType = .STR) then
        a4.pushT .STR
      else if ¬ (isNumericType leftType) ∨ ¬ (isNumericType rightType) then
        (a4.error ("Operator '" ++ op ++ "' requires numeric operands")).pushT .UNKNOWN
      else if leftType = .FLOAT ∨ rightType = .FLOAT then
        a4.pushT .FLOAT
      else a4.pushT .INT
    else if op = "==" ∨ op = "!=" ∨ op = "<" ∨ op = ">" ∨ op = "<=" ∨ op = ">=" then
      let a5 :=
        if ¬ (isTypeCompatible leftType rightType) ∧
           ¬ (isTypeCompatible rightType leftType) then
          a4.error ("Cannot compare " ++ dataTypeToString leftType ++ " and " ++
            dataTypeToString rightType)
        else a4
      a5.pushT .BOOL
    else if op = "&&" ∨ op = "||" then
      let a5 :=
        if leftType ≠ .BOOL ∨ rightType ≠ .BOOL then
          a4.error "Logical operators require boolean operands"
        else a4
      a5.pushT .BOOL
    else (a4.error ("Unknown operator: " ++ op)).pushT .UNKNOWN
  | .unary op operand =>
    let a1 := visitExpr a operand
    let operandType := a1.getCurrentType
    if op = "-" ∨ op = "+" then
      let a2 :=
        if ¬ (isNumericType operandType) then
          a1.error ("Unary operator '" ++ op ++ "' requires numeric operand")
        else a1
      a2.pushT operandType
    else if op = "!" then
      let a2 :=
        if operandType ≠ .BOOL then
          a1.error "Logical not '!' requires boolean operand"
        else a1
      a2.pushT .BOOL
    else (a1.error ("Unknown unary operator: " ++ op)).pushT .UNKNOWN
  | .call callee args =>
    let pair :=
      match callee with
      | .identifier n => (n, a.currentModule)
      | .memberAccess obj member =>
        (match obj with
         | .identifier o => (member, o)
         | _ => ("", a.currentModule))
      | _ => ("", a.currentModule)
    let funcName := pair.1
    let moduleName := pair.2
    let fullName := moduleName ++ "." ++ funcName
    (match a.env.lookupSymbol fullName with
     | Option.none =>
       (a.error ("Undeclared function: '" ++ fullName ++ "'")).pushT .UNKNOWN
     | some sym =>
       let a1 := visitArgsPop a args
       a1.pushT sym.dataType)
  | .memberAccess obj member =>
    let a1 := visitExpr a obj
    let a2 := a1.popT
    (match obj with
     | .identifier moduleName =>
       let fullName := moduleName ++ "." ++ member
       (match a2.env.lookupSymbol fullName with
        | Option.none =>
          (a2.error ("Module '" ++ moduleName ++ "' has no member '" ++
            member ++ "'")).pushT .UNKNOWN
        | some sym => a2.pushT sym.dataType)
     | _ =>
       (a2.error "Member access left side must be an identifier").pushT .UNKNOWN)
  | .grouped e => visitExpr a e
  | .arrayIndex arr idx =>
    let a1 := visitExpr a arr
    let arrayType := a1.getCurrentType
    let a2 := a1.popT
    let a3 := visitExpr a2 idx
    let indexType := a3.getCurrentType
    let a4 := a3.popT
    let a5 :=
      if indexType ≠ .INT then a4.error "Array index must be integer" else a4
    a5.pushT arrayType
  | .range args => (visitRangeArgs a args).pushT .INT
termination_by structural e => e

/-- The argument loop of visit(FunctionCall): visit each argument then pop
the type stack. -/
def visitArgsPop (a : AState) : List Expr → AState
  | [] => a
  | e :: es => visitArgsPop ((visitExpr a e).popT) es
termination_by structural es => es

/-- visit(FormatString): visit each placeholder value. -/
def visitFmtVars (a : AState) : List FormatVar → AState
  | [] => a
  | .mk _ v :: vs => visitFmtVars (visitExpr a v) vs
termination_by structural vs => vs

/-- The argument loop of visit(RangeExpression): visit, read the type, pop,
check numeric. -/
def visitRangeArgs (a : AState) : List Expr → AState
  | [] => a
  | e :: es =>
    let a1 := visitExpr a e
    let argType := a1.getCurrentType
    let a2 := a1.popT
    let a3 :=
      if ¬ (isNumericType argType) then a2.error "Range arguments must be numeric"
      else a2
    visitRangeArgs a3 es
termination_by structural es => es

end

mutual

/-- The statement cases of the SemanticAnalyzer visitor. -/
def visitStmt (a : AState) : Stmt → AState
  | .moduleStmt moduleName =>
    let a1 := { a with env := (a.env.declareModule moduleName).2 }
    { a1 with currentModule := moduleName }
  | .importStmt moduleName =>
    if moduleName ≠ "io" ∧ moduleName ≠ "__builtins__" then
      a.error ("Unknown module: '" ++ moduleName ++ "'")
    else a
  | .functionDef funcName params returnTypeNode body =>
    let rp :=
      match returnTypeNode with
      | some t => a.getDataTypeFromAST (some t)
      | Option.none => (.NONE, a)
    let returnType := rp.1
    let a1 := rp.2
    let (ok, env1) := a1.env.declareFunction funcName returnType a1.currentModule
    let a2 := { a1 with env := env1 }
    if ¬ ok then
      a2.error ("Failed to declare function '" ++ a2.currentModule ++ "." ++
        funcName ++ "'")
    else
      let prevFunction := a2.currentFunction
      let prevReturnType := a2.currentFunctionReturnType
      let prevHasReturn := a2.hasReturnStatement
      let a3 := { a2 with currentFunction := funcName,
                          currentFunctionReturnType := returnType,
                          hasReturnStatement := false,
                          env := a2.env.enterScope }
      let a4 := visitParams a3 params
      let a5 := visitStmt a4 body
      let a6 :=
        if returnType ≠ .NONE ∧ ¬ a5.hasReturnStatement then
          a5.error ("Function '" ++ funcName ++ "' must return a value of type " ++
            dataTypeToString returnType)
        else a5
      let a7 := { a6 with env := a6.env.exitScope }
      { a7 with currentFunction := prevFunction,
                currentFunctionReturnType := prevReturnType,
                hasReturnStatement := prevHasReturn }
  | .block stmts =>
    let a1 := { a with env := a.env.enterScope }
    let a2 := visitStmtListA a1 stmts
    { a2 with env := a2.env.exitScope }
  | .declaration _ varName tyOpt init =>
    let (declaredType, a1) := a.getDataTypeFromAST tyOpt
    let (ok, env1) := a1.env.declareVariable varName declaredType
    let a2 := { a1 with env := env1 }
    if ¬ ok then
      a2.error ("Failed to declare variable '" ++ varName ++ "'")
    else
      (match init with
       | some e =>
         let a3 := visitExpr a2 e
         let initType := a3.getCurrentType
         a3.checkTypeCompatibility declaredType initType
           ("variable '" ++ varName ++ "' initialization")
       | Option.none => a2)
  | .ifStmt cond thenB elseB =>
    let a1 := visitExpr a cond
    let condType := a1.getCurrentType
    let a2 :=
      if condType ≠ .BOOL ∧ ¬ (isNumericType condType) then
        a1.error "If condition must be boolean or numeric type"
      else a1
    let a3 := visitStmt a2 thenB
    (match elseB with
     | some eb => visitStmt a3 eb
     | Option.none => a3)
  | .whileStmt cond body =>
    let a1 := visitExpr a cond
    let condType := a1.getCurrentType
    let a2 :=
      if condType ≠ .BOOL ∧ ¬ (isNumericType condType) then
        a1.error "While condition must be boolean or numeric type"
      else a1
    let a3 := { a2 with loopDepth := a2.loopDepth + 1 }
    let a4 := visitStmt a3 body
    { a4 with loopDepth := a4.loopDepth - 1 }
  | .forStmt loopVar iterable body =>
    let a1 := { a with env := a.env.enterScope }
    let a2 := { a1 with env := (a1.env.declareVariable loopVar .INT).2 }
    let a3 := visitExpr a2 iterable
    let iterType := a3.getCurrentType
    let a4 :=
      if iterType ≠ .INT then a3.error "For loop iterable must be range expression"
      else a3
    let a5 := { a4 with loopDepth := a4.loopDepth + 1 }
    let a6 := visitStmt a5 body
    let a7 := { a6 with loopDepth := a6.loopDepth - 1 }
    { a7 with env := a7.env.exitScope }
  | .returnStmt value =>
    let a1 := { a with hasReturnStatement := true }
    if a1.currentFunction = "" then
      a1.error "Return statement outside function"
    else
      (match value with
       | Option.none =>
         if a1.currentFunctionReturnType ≠ .NONE then
           a1.error ("Function '" ++ a1.currentFunction ++
             "' expects return type " ++
             dataTypeToString a1.currentFunctionReturnType ++ ", but got none")
         else a1
       | some e =>
         let a2 := visitExpr a1 e
         let returnType := a2.getCurrentType
         a2.checkTypeCompatibility a2.currentFunctionReturnType returnType
           ("function '" ++ a2.currentFunction ++ "' return"))
  | .breakStmt =>
    if a.loopDepth = 0 then a.error "Break statement outside loop" else a
  | .continueStmt =>
    if a.loopDepth = 0 then a.error "Continue statement outside loop" else a
  | .exprStmt e => visitExpr a e
termination_by structural s => s

/-- visit(Program)/visit(Block) statement iteration. -/
def visitStmtListA (a : AState) : List Stmt → AState
  | [] => a
  | s :: ss => visitStmtListA (visitStmt a s) ss
termination_by structural ss => ss

/-- The parameter loop of visit(Function): each parameter is declared in the
function scope with its annotated type. -/
def visitParams (a : AState) : List Param → AState
  | [] => a
  | p :: ps =>
    let (paramType, a1) := a.getDataTypeFromAST p.ty
    let a2 := { a1 with env := (a1.env.declareVariable p.name paramType).2 }
    visitParams a2 ps
termination_by structural ps => ps

end

/-- The initial analyzer state. -/
def analyzerInit : AState :=
  ⟨envInit, [], false, "", .NONE, false, 0, "", []⟩

/-- SemanticAnalyzer::analyze: pre-declare the builtin modules and their
functions, then visit the program.  Returns `!hasError` and the final
state. -/
def analyze (stmts : List Stmt) : Bool × AState :=
  let a0 := analyzerInit
  let a1 := { a0 with env := (a0.env.declareModule "__builtins__").2 }
  let a2 := { a1 with env := (a1.env.declareModule "io").2 }
  let a3 := { a2 with env := (a2.env.declareFunction "range" .INT "__builtins__").2 }
  let a4 := { a3 with env := (a3.env.declareFunction "print" .NONE "__builtins__").2 }
  let a5 := { a4 with env := (a4.env.declareFunction "len" .INT "__builtins__").2 }
  let a6 := { a5 with env := (a5.env.declareFunction "print" .NONE "io").2 }
  let a7 := { a6 with env := (a6.env.declareFunction "scan" .STR "io").2 }
  let a8 := { a7 with env := (a7.env.declareFunction "read" .STR "io").2 }
  let a9 := visitStmtListA a8 stmts
  (!a9.hasError, a9)

/-! ## Parser — src/Lexer/Token.hpp and src/AST/ASTBuilder.cpp.

The parser's recursive descent is embedded with an explicit fuel parameter
(every function consumes one unit per call; any concrete parse succeeds with
fuel larger than the recursion depth, and the structural theorems below hold
for every fuel).  A C++ `nullptr` result is `Option.none`.  The source
freely builds AST nodes with null children once an error has occurred
(e.g. `BinaryExpression(expr, "=", nullptr)`); since the embedded `Expr` has
no null nodes, a node with a null child is degraded to `none` — such nodes
can only arise after `errorOccurred` is set and no claim inspects them.
`FormatString`'s constructor-side placeholder extraction (src/unnamed/part_001)
is not modelled: no claim reads the placeholder list of a parsed node. -/

inductive TokenType where
  | IDENTIFIER | KEYWORD | NUMBER | STRING | FORMAT_STRING | OPERATOR
  | END_OF_LINE | END_OF_FILE | WRONG_TOKEN
deriving DecidableEq, Repr

structure Token where
  type : TokenType
  value : String
deriving DecidableEq, Repr

/-- The static `eofToken` returned past the end of the buffer. -/
def eofToken : Token := ⟨.END_OF_FILE, ""⟩

/-- The ASTBuilder's mutable parsing state. -/
structure PState where
  tokens : List Token
  currentPosition : Nat
  errorOccurred : Bool
  errorMessage : String
deriving DecidableEq, Repr

namespace PState

/-- ASTBuilder::currentToken. -/
def currentToken (p : PState) : Token := p.tokens.getD p.currentPosition eofToken

/-- ASTBuilder::peekNextToken. -/
def peekNextToken (p : PState) : Token := p.tokens.getD (p.currentPosition + 1) eofToken

/-- ASTBuilder::advance. -/
def advance (p : PState) : PState :=
  if p.currentPosition < p.tokens.length then
    { p with currentPosition := p.currentPosition + 1 }
  else p

/-- ASTBuilder::match. -/
def matchT (p : PState) (t : TokenType) : Bool := p.currentToken.type = t

/-- ASTBuilder::matchValue. -/
def matchValue (p : PState) (v : String) : Bool := p.currentToken.value = v

/-- ASTBuilder::isEndOfLine. -/
def isEndOfLine (p : PState) : Bool := p.matchT .END_OF_LINE

/-- ASTBuilder::logError — set the flag, record (overwrite) the message. -/
def logError (p : PState) (msg : String) : PState :=
  { p with errorOccurred := true, errorMessage := msg }

end PState

/-- The loop of ASTBuilder::consumeEndOfLine; the position strictly
increases on every iteration, so `tokens.length + 1` units of fuel always
suffice. -/
def consumeEolGo : Nat → PState → PState
  | 0, p => p
  | n + 1, p => if p.isEndOfLine then consumeEolGo n p.advance else p

/-- ASTBuilder::consumeEndOfLine. -/
def consumeEndOfLine (p : PState) : PState := consumeEolGo (p.tokens.length + 1) p

/-- ASTBuilder::consumeValue — advance past the expected lexeme, or log the
error and stay put. -/
def consumeValueP (p : PState) (v : String) (errorMessage : String) :
    Token × PState :=
  if p.matchValue v then (p.currentToken, p.advance)
  else (p.currentToken, p.logError errorMessage)

/-- The digit-string value of `std::stod` restricted to the `NUMBER` lexemes
the lexer produces (digits with an optional single decimal point). -/
def digitsVal (cs : List Char) : Nat :=
  cs.foldl (fun a c => a * 10 + (c.toNat - '0'.toNat)) 0

/-- Split a digit string at its (first) decimal point. -/
def splitAtDot : List Char → List Char × Option (List Char)
  | [] => ([], Option.none)
  | c :: rest =>
    if c = '.' then ([], some rest)
    else
      let (a, b) := splitAtDot rest
      (c :: a, b)

def stodQ (s : String) : ℚ :=
  match splitAtDot s.data with
  | (ip, Option.none) => (digitsVal ip : ℚ)
  | (ip, some fp) => (digitsVal ip : ℚ) + (digitsVal fp : ℚ) / ((10 : ℚ) ^ fp.length)

/-- The escape decoding performed by the StringLiteral / FormatString
constructors (src/unnamed/part_001): `\n`, `\t`, `\\`, `\"` are translated;
any other backslash is kept verbatim and the next character is processed
normally. -/
def decodeEscapes : List Char → List Char
  | [] => []
  | '\\' :: c :: rest =>
    if c = 'n' then '\n' :: decodeEscapes rest
    else if c = 't' then '\t' :: decodeEscapes rest
    else if c = '\\' then '\\' :: decodeEscapes rest
    else if c = '"' then '"' :: decodeEscapes rest
    else '\\' :: decodeEscapes (c :: rest)
  | c :: rest => c :: decodeEscapes rest

/-- ASTBuilder::parseType (non-recursive). -/
def parseTypeP (p : PState) : Option TypeNode × PState :=
  if ¬ (p.matchT .KEYWORD) ∧ ¬ (p.matchT .IDENTIFIER) then
    (Option.none, p.logError "Expected type name")
  else (some (.named p.currentToken.value), p.advance)

/-- ASTBuilder::parseParameter. -/
def parseParameterP (p : PState) : Option Param × PState :=
  if ¬ (p.matchT .IDENTIFIER) then
    (Option.none, p.logError "Expected parameter name")
  else
    let paramName := p.currentToken.value
    let p1 := p.advance
    if p1.matchValue ":" then
      let (t, p2) := parseTypeP p1.advance
      (some ⟨paramName, t⟩, p2)
    else (some ⟨paramName, Option.none⟩, p1)

/-- The do-while loop of ASTBuilder::parseParameterList. -/
def parseParamListLoop : Nat → PState → List Param → List Param × PState
  | 0, p, acc => (acc, p)
  | fuel + 1, p, acc =>
    let (paramOpt, p1) := parseParameterP p
    let acc1 := match paramOpt with | some pr => acc ++ [pr] | Option.none => acc
    if p1.matchValue "," then
      let p2 := p1.advance
      if ¬ (p2.matchValue ")") ∧ ¬ p2.errorOccurred then
        parseParamListLoop fuel p2 acc1
      else (acc1, p2)
    else (acc1, p1)

/-- ASTBuilder::parseParameterList. -/
def parseParameterListP (fuel : Nat) (p : PState) : List Param × PState :=
  if ¬ (p.matchValue ")") then parseParamListLoop fuel p [] else ([], p)

/-- ASTBuilder::parseImport. -/
def parseImportP (p : PState) : Option Stmt × PState :=
  let p1 := p.advance
  if ¬ (p1.matchT .IDENTIFIER) then
    (Option.none, p1.logError "Expected identifier after 'import'")
  else
    let moduleName := p1.currentToken.value
    (some (.importStmt moduleName), consumeEndOfLine p1.advance)

/-- ASTBuilder::parseFormatString — wraps the raw text in a FormatString
node; the constructor escape-decodes the text (its placeholder extraction is
not modelled; no claim reads it). -/
def parseFormatStringP (raw : String) : Expr :=
  .formatString (String.mk (decodeEscapes raw.data)) []

mutual

/-- ASTBuilder::parseStatement — dispatch on the first token. -/
def parseStatementF : Nat → PState → Option Stmt × PState
  | 0, p => (Option.none, p)
  | fuel + 1, p =>
    if p.matchT .KEYWORD ∧ p.currentToken.value = "import" then
      parseImportP p
    else if p.matchT .KEYWORD ∧ p.currentToken.value = "func" then
      parseFunctionF fuel p
    else if p.matchT .KEYWORD ∧ (p.currentToken.value = "var" ∨
        p.currentToken.value = "let" ∨ p.currentToken.value = "const") then
      parseDeclarationF fuel p
    else if p.matchT .KEYWORD ∧ p.currentToken.value = "for" then
      let p1 := p.advance
      if p1.matchT .IDENTIFIER ∧ p1.peekNextToken.value = "in" then
        parseForInStatementF fuel p
      else (Option.none, p.logError "For statement not yet implemented")
    else if p.matchT .KEYWORD ∧ p.currentToken.value = "return" then
      parseReturnStatementF fuel p
    else if p.matchT .KEYWORD ∧ p.currentToken.value = "if" then
      (Option.none, p.logError "If statement not yet implemented")
    else if p.matchT .KEYWORD ∧ p.currentToken.value = "while" then
      (Option.none, p.logError "While statement not yet implemented")
    else if p.matchT .KEYWORD ∧ p.currentToken.value = "break" then
      (Option.none, p.logError "Break statement not yet implemented")
    else if p.matchT .KEYWORD ∧ p.currentToken.value = "continue" then
      (Option.none, p.logError "Continue statement not yet implemented")
    else if p.matchT .IDENTIFIER ∨ p.matchT .NUMBER ∨ p.matchT .STRING ∨
        p.matchT .FORMAT_STRING then
      parseExpressionStatementF fuel p
    else if p.matchT .OPERATOR ∧ (p.currentToken.value = "\x7d" ∨
        p.currentToken.value = ")") then
      (Option.none, p)
    else
      (Option.none, p.logError ("Unexpected token: " ++ p.currentToken.value))

/-- ASTBuilder::parseFunction. -/
def parseFunctionF : Nat → PState → Option Stmt × PState
  | 0, p => (Option.none, p)
  | fuel + 1, p =>
    let p1 := p.advance
    if ¬ (p1.matchT .IDENTIFIER) then
      (Option.none, p1.logError "Expected function name")
    else
      let funcName := p1.currentToken.value
      let p2 := p1.advance
      let (_, p3) := consumeValueP p2 "(" "Expected '(' after function name"
      let (params, p4) := parseParameterListP fuel p3
      let (_, p5) := consumeValueP p4 ")" "Expected ')' after parameters"
      let rp :=
        if p5.matchValue ":" then parseTypeP p5.advance
        else (Option.none, p5)
      let returnType := rp.1
      let p6 := rp.2
      let (_, p7) := consumeValueP p6 "\x7b" "Expected '\x7b' at start of function body"
      let p8 := consumeEndOfLine p7
      let (body, p9) := parseBlockF fuel p8
      let (_, p10) := consumeValueP p9 "\x7d" "Expected '\x7d' at end of function body"
      let p11 := consumeEndOfLine p10
      (some (.functionDef funcName params returnType (.block body)), p11)

/-- The loop of ASTBuilder::parseBlock. -/
def parseBlockLoopF : Nat → PState → List Stmt → List Stmt × PState
  | 0, p, acc => (acc, p)
  | fuel + 1, p, acc =>
    if ¬ (p.matchValue "\x7d") ∧ ¬ (p.matchT .END_OF_FILE) ∧ ¬ p.errorOccurred then
      let p1 := consumeEndOfLine p
      if p1.matchValue "\x7d" then (acc, p1)
      else
        let (stmtOpt, p2) := parseStatementF fuel p1
        let acc1 := match stmtOpt with | some s => acc ++ [s] | Option.none => acc
        parseBlockLoopF fuel (consumeEndOfLine p2) acc1
    else (acc, p)

/-- ASTBuilder::parseBlock (returns the statement list of the Block node). -/
def parseBlockF : Nat → PState → List Stmt × PState
  | 0, p => ([], p)
  | fuel + 1, p => parseBlockLoopF fuel p []

/-- ASTBuilder::parseDeclaration. -/
def parseDeclarationF : Nat → PState → Option Stmt × PState
  | 0, p => (Option.none, p)
  | fuel + 1, p =>
    let keyword := p.currentToken.value
    let p1 := p.advance
    if ¬ (p1.matchT .IDENTIFIER) then
      (Option.none, p1.logError "Expected identifier in declaration")
    else
      let varName := p1.currentToken.value
      let p2 := p1.advance
      let tp := if p2.matchValue ":" then parseTypeP p2.advance else (Option.none, p2)
      let varType := tp.1
      let p3 := tp.2
      let (init, p4) :=
        if p3.matchValue "=" then parseExpressionF fuel p3.advance
        else (Option.none, p3)
      let p5 := consumeEndOfLine p4
      (some (.declaration keyword varName varType init), p5)

/-- ASTBuilder::parseExpressionStatement. -/
def parseExpressionStatementF : Nat → PState → Option Stmt × PState
  | 0, p => (Option.none, p)
  | fuel + 1, p =>
    let (exprOpt, p1) := parseExpressionF fuel p
    match exprOpt with
    | some e => (some (.exprStmt e), consumeEndOfLine p1)
    | Option.none => (Option.none, p1)

/-- ASTBuilder::parseReturnStatement. -/
def parseReturnStatementF : Nat → PState → Option Stmt × PState
  | 0, p => (Option.none, p)
  | fuel + 1, p =>
    let p1 := p.advance
    let (value, p2) :=
      if ¬ p1.isEndOfLine ∧ ¬ (p1.matchValue "\x7d") then parseExpressionF fuel p1
      else (Option.none, p1)
    (some (.returnStmt value), consumeEndOfLine p2)

/-- ASTBuilder::parseForInStatement.  A null `rangeExpr` (only possible
after `errorOccurred`) is degraded to an empty Range node. -/
def parseForInStatementF : Nat → PState → Option Stmt × PState
  | 0, p => (Option.none, p)
  | fuel + 1, p =>
    let p1 := p.advance
    if ¬ (p1.matchT .IDENTIFIER) then
      (Option.none, p1.logError "Expected identifier in for loop")
    else
      let loopVar := p1.currentToken.value
      let p2 := p1.advance
      if ¬ (p2.matchT .IDENTIFIER ∧ p2.currentToken.value = "in") then
        (Option.none, p2.logError "Expected 'in' in for loop")
      else
        let p3 := p2.advance
        let (rangeOpt, p4) := parseRangeF fuel p3
        let (_, p5) := consumeValueP p4 "\x7b" "Expected '\x7b' at start of loop body"
        let p6 := consumeEndOfLine p5
        let (body, p7) := parseBlockF fuel p6
        let (_, p8) := consumeValueP p7 "\x7d" "Expected '\x7d' at end of loop body"
        let p9 := consumeEndOfLine p8
        (some (.forStmt loopVar (rangeOpt.getD (.range [])) (.block body)), p9)

/-- The argument loop of ASTBuilder::parseRange. -/
def parseRangeArgsLoopF : Nat → PState → List Expr → List Expr × PState
  | 0, p, acc => (acc, p)
  | fuel + 1, p, acc =>
    if ¬ (p.matchValue ")") ∧ ¬ p.errorOccurred then
      let (argOpt, p1) := parseExpressionF fuel p
      let acc1 := match argOpt with | some a => acc ++ [a] | Option.none => acc
      if p1.matchValue "," then parseRangeArgsLoopF fuel p1.advance acc1
      else (acc1, p1)
    else (acc, p)

/-- ASTBuilder::parseRange. -/
def parseRangeF : Nat → PState → Option Expr × PState
  | 0, p => (Option.none, p)
  | fuel + 1, p =>
    if ¬ (p.matchT .IDENTIFIER ∧ p.currentToken.value = "range") then
      (Option.none, p.logError "Expected 'range'")
    else
      let p1 := p.advance
      let (_, p2) := consumeValueP p1 "(" "Expected '(' after 'range'"
      let (args, p3) := parseRangeArgsLoopF fuel p2 []
      let (_, p4) := consumeValueP p3 ")" "Expected ')' after range arguments"
      (some (.range args), p4)

/-- ASTBuilder::parseExpression. -/
def parseExpressionF : Nat → PState → Option Expr × PState
  | 0, p => (Option.none, p)
  | fuel + 1, p => parseAssignmentF fuel p

/-- ASTBuilder::parseAssignment (right-associative). -/
def parseAssignmentF : Nat → PState → Option Expr × PState
  | 0, p => (Option.none, p)
  | fuel + 1, p =>
    let (exprOpt, p1) := parseLogicalOrF fuel p
    if p1.matchValue "=" then
      let p2 := p1.advance
      let (valOpt, p3) := parseAssignmentF fuel p2
      (match exprOpt, valOpt with
       | some l, some r => (some (.binary l "=" r), p3)
       | _, _ => (Option.none, p3))
    else (exprOpt, p1)

def parseLogicalOrF : Nat → PState → Option Expr × PState
  | 0, p => (Option.none, p)
  | fuel + 1, p =>
    let (e, p1) := parseLogicalAndF fuel p
    parseLogicalOrLoopF fuel p1 e

def parseLogicalOrLoopF : Nat → PState → Option Expr → Option Expr × PState
  | 0, p, e => (e, p)
  | fuel + 1, p, e =>
    if p.matchValue "||" then
      let op := p.currentToken.value
      let (r, p1) := parseLogicalAndF fuel p.advance
      let e1 := match e, r with
        | some l, some rr => some (.binary l op rr)
        | _, _ => Option.none
      parseLogicalOrLoopF fuel p1 e1
    else (e, p)

def parseLogicalAndF : Nat → PState → Option Expr × PState
  | 0, p => (Option.none, p)
  | fuel + 1, p =>
    let (e, p1) := parseEqualityF fuel p
    parseLogicalAndLoopF fuel p1 e

def parseLogicalAndLoopF : Nat → PState → Option Expr → Option Expr × PState
  | 0, p, e => (e, p)
  | fuel + 1, p, e =>
    if p.matchValue "&&" then
      let op := p.currentToken.value
      let (r, p1) := parseEqualityF fuel p.advance
      let e1 := match e, r with
        | some l, some rr => some (.binary l op rr)
        | _, _ => Option.none
      parseLogicalAndLoopF fuel p1 e1
    else (e, p)

def parseEqualityF : Nat → PState → Option Expr × PState
  | 0, p => (Option.none, p)
  | fuel + 1, p =>
    let (e, p1) := parseComparisonF fuel p
    parseEqualityLoopF fuel p1 e

def parseEqualityLoopF : Nat → PState → Option Expr → Option Expr × PState
  | 0, p, e => (e, p)
  | fuel + 1, p, e =>
    if p.matchValue "==" ∨ p.matchValue "!=" then
      let op := p.currentToken.value
      let (r, p1) := parseComparisonF fuel p.advance
      let e1 := match e, r with
        | some l, some rr => some (.binary l op rr)
        | _, _ => Option.none
      parseEqualityLoopF fuel p1 e1
    else (e, p)

def parseComparisonF : Nat → PState → Option Expr × PState
  | 0, p => (Option.none, p)
  | fuel + 1, p =>
    let (e, p1) := parseAdditiveF fuel p
    parseComparisonLoopF fuel p1 e

def parseComparisonLoopF : Nat → PState → Option Expr → Option Expr × PState
  | 0, p, e => (e, p)
  | fuel + 1, p, e =>
    if p.matchValue "<" ∨ p.matchValue "<=" ∨ p.matchValue ">" ∨ p.matchValue ">=" then
      let op := p.currentToken.value
      let (r, p1) := parseAdditiveF fuel p.advance
      let e1 := match e, r with
        | some l, some rr => some (.binary l op rr)
        | _, _ => Option.none
      parseComparisonLoopF fuel p1 e1
    else (e, p)

def parseAdditiveF : Nat → PState → Option Expr × PState
  | 0, p => (Option.none, p)
  | fuel + 1, p =>
    let (e, p1) := parseMultiplicativeF fuel p
    parseAdditiveLoopF fuel p1 e

def parseAdditiveLoopF : Nat → PState → Option Expr → Option Expr × PState
  | 0, p, e => (e, p)
  | fuel + 1, p, e =>
    if p.matchValue "+" ∨ p.matchValue "-" then
      let op := p.currentToken.value
      let (r, p1) := parseMultiplicativeF fuel p.advance
      let e1 := match e, r with
        | some l, some rr => some (.binary l op rr)
        | _, _ => Option.none
      parseAdditiveLoopF fuel p1 e1
    else (e, p)

def parseMultiplicativeF : Nat → PState → Option Expr × PState
  | 0, p => (Option.none, p)
  | fuel + 1, p =>
    let (e, p1) := parseUnaryF fuel p
    parseMultiplicativeLoopF fuel p1 e

def parseMultiplicativeLoopF : Nat → PState → Option Expr → Option Expr × PState
  | 0, p, e => (e, p)
  | fuel + 1, p, e =>
    if p.matchValue "*" ∨ p.matchValue "/" ∨ p.matchValue "%" then
      let op := p.currentToken.value
      let (r, p1) := parseUnaryF fuel p.advance
      let e1 := match e, r with
        | some l, some rr => some (.binary l op rr)
        | _, _ => Option.none
      parseMultiplicativeLoopF fuel p1 e1
    else (e, p)

def parseUnaryF : Nat → PState → Option Expr × PState
  | 0, p => (Option.none, p)
  | fuel + 1, p =>
    if p.matchValue "!" ∨ p.matchValue "-" ∨ p.matchValue "+" then
      let op := p.currentToken.value
      let (operandOpt, p1) := parseUnaryF fuel p.advance
      (operandOpt.map (fun o => .unary op o), p1)
    else parsePostfixF fuel p

def parsePostfixF : Nat → PState → Option Expr × PState
  | 0, p => (Option.none, p)
  | fuel + 1, p =>
    let (e, p1) := parsePrimaryF fuel p
    parsePostfixLoopF fuel p1 e

/-- The postfix loop: member access and calls, chained.  A missing
identifier after a dot logs the error and returns the expression built so
far. -/
def parsePostfixLoopF : Nat → PState → Option Expr → Option Expr × PState
  | 0, p, e => (e, p)
  | fuel + 1, p, e =>
    if p.matchValue "." then
      let p1 := p.advance
      if ¬ (p1.matchT .IDENTIFIER) then
        (e, p1.logError "Expected identifier after '.'")
      else
        let member := p1.currentToken.value
        let p2 := p1.advance
        parsePostfixLoopF fuel p2 (e.map (fun x => .memberAccess x member))
    else if p.matchValue "(" then
      let (e1, p1) := parseFunctionCallF fuel p e
      parsePostfixLoopF fuel p1 e1
    else (e, p)

def parsePrimaryF : Nat → PState → Option Expr × PState
  | 0, p => (Option.none, p)
  | fuel + 1, p =>
    if p.matchT .IDENTIFIER then
      (some (.identifier p.currentToken.value), p.advance)
    else if p.matchT .NUMBER then
      (some (.numberLit (stodQ p.currentToken.value)), p.advance)
    else if p.matchT .STRING then
      (some (.stringLit (String.mk (decodeEscapes p.currentToken.value.data))), p.advance)
    else if p.matchT .FORMAT_STRING then
      (some (parseFormatStringP p.currentToken.value), p.advance)
    else if p.matchT .KEYWORD ∧ (p.currentToken.value = "true" ∨
        p.currentToken.value = "false") then
      (some (.booleanLit (p.currentToken.value = "true")), p.advance)
    else if p.matchValue "(" then
      let (eOpt, p1) := parseExpressionF fuel p.advance
      let (_, p2) := consumeValueP p1 ")" "Expected ')' after expression"
      (eOpt.map .grouped, p2)
    else
      (Option.none, p.logError ("Unexpected token in expression: " ++ p.currentToken.value))

/-- ASTBuilder::parseFunctionCall. -/
def parseFunctionCallF : Nat → PState → Option Expr → Option Expr × PState
  | 0, p, _ => (Option.none, p)
  | fuel + 1, p, callee =>
    let (_, p1) := consumeValueP p "(" "Expected '(' in function call"
    let (args, p2) := parseArgumentListF fuel p1
    let (_, p3) := consumeValueP p2 ")" "Expected ')' after arguments"
    (callee.map (fun c => .call c args), p3)

/-- ASTBuilder::parseArgumentList. -/
def parseArgumentListF : Nat → PState → List Expr × PState
  | 0, p => ([], p)
  | fuel + 1, p =>
    if ¬ (p.matchValue ")") then parseArgListLoopF fuel p []
    else ([], p)

/-- The do-while loop of parseArgumentList. -/
def parseArgListLoopF : Nat → PState → List Expr → List Expr × PState
  | 0, p, acc => (acc, p)
  | fuel + 1, p, acc =>
    let (argOpt, p1) := parseExpressionF fuel p
    let acc1 := match argOpt with | some a => acc ++ [a] | Option.none => acc
    if p1.matchValue "," then
      let p2 := p1.advance
      if ¬ (p2.matchValue ")") ∧ ¬ p2.errorOccurred then
        parseArgListLoopF fuel p2 acc1
      else (acc1, p2)
    else (acc1, p1)

end

/-- The main loop of ASTBuilder::parseProgram:
`while (!match(EOF) && !errorOccurred) { skip EOLs; if EOF break;
parseStatement; on nullptr advance one token }`. -/
def parseProgramLoopF : Nat → PState → List Stmt → List Stmt × PState
  | 0, p, acc => (acc, p)
  | fuel + 1, p, acc =>
    if ¬ (p.matchT .END_OF_FILE) ∧ ¬ p.errorOccurred then
      let p1 := consumeEndOfLine p
      if p1.matchT .END_OF_FILE then (acc, p1)
      else
        match parseStatementF fuel p1 with
        | (some s, p2) => parseProgramLoopF fuel p2 (acc ++ [s])
        | (Option.none, p2) => parseProgramLoopF fuel p2.advance acc
    else (acc, p)

/-- ASTBuilder::parseProgram on a fresh builder over a token buffer: the
returned Program's statement list (the Program object itself is always
freshly allocated, i.e. never null) and the final builder state. -/
def parseProgramP (fuel : Nat) (tokens : List Token) : List Stmt × PState :=
  parseProgramLoopF fuel ⟨tokens, 0, false, ""⟩ []

/-! ## Concrete inputs and auxiliary definitions used by the claims -/

/-- A sequence of `Compiler::addConstant` calls (used to state the
constant-pool deduplication property over one compilation). -/
def addConstants (st : CState) : List RuntimeValue → CState
  | [] => st
  | v :: vs => addConstants (st.addConstant v).2 vs

/-- The runtime-value types for which `addConstant` keeps a dedup cache. -/
def cacheable : RuntimeValue → Bool
  | .int _ => true
  | .float _ => true
  | .bool _ => true
  | .str _ => true
  | _ => false

/-- The cache lookup `addConstant` performs for a cacheable value. -/
def cacheLookup (st : CState) : RuntimeValue → Option Int
  | .int v => lookupK st.intConstants v
  | .float v => lookupK st.floatConstants v
  | .bool v => lookupK st.boolConstants v
  | .str v => lookupK st.stringConstants v
  | _ => Option.none

/-- Consistency of the dedup caches with the constant pool: every cached
index is in range and its pool slot holds exactly the cached value. -/
def poolHolds {κ : Type} (constants : List RuntimeValue) (mk : κ → RuntimeValue)
    (m : List (κ × Int)) : Prop :=
  ∀ p ∈ m, 0 ≤ p.2 ∧ p.2.toNat < constants.length ∧
    constants.getD p.2.toNat .none = mk p.1

def CacheINV (st : CState) : Prop :=
  poolHolds st.constants RuntimeValue.int st.intConstants ∧
  poolHolds st.constants RuntimeValue.float st.floatConstants ∧
  poolHolds st.constants RuntimeValue.bool st.boolConstants ∧
  poolHolds st.constants RuntimeValue.str st.stringConstants

/-- Monotone growth of the compiler state under `addConstant`: the constant
pool and every per-type cache only ever get appended to. -/
def CGrows (st st' : CState) : Prop :=
  (∃ t, st'.constants = st.constants ++ t) ∧
  (∃ t, st'.intConstants = st.intConstants ++ t) ∧
  (∃ t, st'.floatConstants = st.floatConstants ++ t) ∧
  (∃ t, st'.boolConstants = st.boolConstants ++ t) ∧
  (∃ t, st'.stringConstants = st.stringConstants ++ t)

/-- Default frame for positional access in theorem statements. -/
def dfltFrame : CallFrame := ⟨"", 0, 0, []⟩

/-- Modelled from the spec (claim C5): the *claimed* truthiness rule,
including "an Array is true iff nonempty".  To be compared against the
code's `RuntimeValue::asBoolean`. -/
def claimTruthy : RuntimeValue → Bool
  | .none => false
  | .int n => n != 0
  | .float q => q != 0
  | .bool b => b
  | .str s => !s.isEmpty
  | .array a => !a.isEmpty

/-- A token stream with a syntax error (`+` cannot start a statement)
followed by a perfectly parseable statement (`x`). -/
def toksErr : List Token :=
  [⟨.OPERATOR, "+"⟩, ⟨.END_OF_LINE, "\n"⟩, ⟨.IDENTIFIER, "x"⟩,
   ⟨.END_OF_LINE, "\n"⟩, ⟨.END_OF_FILE, ""⟩]

/-- The post-error suffix of `toksErr` on its own. -/
def toksOk : List Token :=
  [⟨.IDENTIFIER, "x"⟩, ⟨.END_OF_LINE, "\n"⟩, ⟨.END_OF_FILE, ""⟩]

/-- The token stream of the three-line program
`var x: int = 0` / `for i in range(0, 5, 1) { x = x + i }` / `io.print(x)`
(claim C4; the lexer is out of the spec's scope, so the stream is written
out as the token vocabulary prescribes). -/
def c4tokens : List Token :=
  [⟨.KEYWORD, "var"⟩, ⟨.IDENTIFIER, "x"⟩, ⟨.OPERATOR, ":"⟩, ⟨.KEYWORD, "int"⟩,
   ⟨.OPERATOR, "="⟩, ⟨.NUMBER, "0"⟩, ⟨.END_OF_LINE, "\n"⟩,
   ⟨.KEYWORD, "for"⟩, ⟨.IDENTIFIER, "i"⟩, ⟨.IDENTIFIER, "in"⟩,
   ⟨.IDENTIFIER, "range"⟩, ⟨.OPERATOR, "("⟩, ⟨.NUMBER, "0"⟩, ⟨.OPERATOR, ","⟩,
   ⟨.NUMBER, "5"⟩, ⟨.OPERATOR, ","⟩, ⟨.NUMBER, "1"⟩, ⟨.OPERATOR, ")"⟩,
   ⟨.OPERATOR, "\x7b"⟩, ⟨.IDENTIFIER, "x"⟩, ⟨.OPERATOR, "="⟩,
   ⟨.IDENTIFIER, "x"⟩, ⟨.OPERATOR, "+"⟩, ⟨.IDENTIFIER, "i"⟩,
   ⟨.OPERATOR, "\x7d"⟩, ⟨.END_OF_LINE, "\n"⟩,
   ⟨.IDENTIFIER, "io"⟩, ⟨.OPERATOR, "."⟩, ⟨.IDENTIFIER, "print"⟩,
   ⟨.OPERATOR, "("⟩, ⟨.IDENTIFIER, "x"⟩, ⟨.OPERATOR, ")"⟩,
   ⟨.END_OF_LINE, "\n"⟩, ⟨.END_OF_FILE, ""⟩]

/-- The claim-C4 program as parsed by the embedded parser. -/
def c4program : List Stmt := (parseProgramP 200 c4tokens).1

/-- The one-statement program `5 - 3` (claim C1). -/
def c1program : List Stmt :=
  [.exprStmt (.binary (.numberLit 5) "-" (.numberLit 3))]

/-- An empty module and a VM state whose eval stack holds one nonempty
array (claim C5's counterexample input). -/
def c5mod : BytecodeModule := ⟨[], []⟩

def c5state : VMState :=
  ⟨[.array [.int 1]], [], [⟨"global", 0, 0, []⟩], 0, true, [], []⟩

/-- The one-statement program calling the builtin `print` through a bare
identifier (claim C6's counterexample input). -/
def c6program : List Stmt := [.exprStmt (.call (.identifier "print") [])]

/-! ## Helper lemmas -/

theorem getD_append_len {α : Type} (l : List α) (x d : α) (r : List α) :
    (l ++ x :: r).getD l.length d = x := by
  induction l with
  | nil => rfl
  | cons a as ih => simpa using ih

theorem set_append_len {α : Type} (l : List α) (x v : α) (r : List α) :
    (l ++ x :: r).set l.length v = l ++ v :: r := by
  induction l with
  | nil => rfl
  | cons a as ih => simp [List.set, ih]

theorem lookupK_append_some {κ α : Type} [DecidableEq κ] (m t : List (κ × α))
    (k : κ) (i : α) (h : lookupK m k = some i) : lookupK (m ++ t) k = some i := by
  induction m with
  | nil => simp [lookupK] at h
  | cons p rest ih =>
    simp only [lookupK, List.cons_append] at h ⊢
    by_cases hk : p.1 = k
    · simpa [hk] using h
    · simp only [hk, if_false] at h ⊢
      exact ih h

theorem lookupK_none_append_self {κ α : Type} [DecidableEq κ] (m : List (κ × α))
    (k : κ) (i : α) (h : lookupK m k = Option.none) :
    lookupK (m ++ [(k, i)]) k = some i := by
  induction m with
  | nil => simp [lookupK]
  | cons p rest ih =>
    simp only [lookupK, List.cons_append] at h ⊢
    by_cases hk : p.1 = k
    · simp [hk] at h
    · simp only [hk, if_false] at h ⊢
      exact ih h

theorem lookupK_mem {κ α : Type} [DecidableEq κ] (m : List (κ × α)) (k : κ)
    (i : α) (h : lookupK m k = some i) : (k, i) ∈ m := by
  induction m with
  | nil => simp [lookupK] at h
  | cons p rest ih =>
    simp only [lookupK] at h
    by_cases hk : p.1 = k
    · simp only [hk, if_true] at h
      cases h
      cases p
      subst hk
      exact List.mem_cons_self _ _
    · simp only [hk, if_false] at h
      exact List.mem_cons_of_mem _ (ih h)

/-! ## Claim theorems -/

/-- C1.  The claim says every executed SUB/MUL/DIV with numeric operands
pushes the widened arithmetic result.  The code cannot do this:
`VirtualMachine::execute` has *no cases* for SUB, MUL or DIV — all three
fall into the `default:` arm, which logs "Runtime Error: Unknown opcode"
and neither pops nor pushes anything — although the compiler does emit
SUB/MUL/DIV for the `-`, `*`, `/` operators and the opcode enum defines
them.  This theorem exhibits the code bug: (i) executing SUB/MUL/DIV on
*any* state only appends the unknown-opcode diagnostic; (ii) the compiled
program `5 - 3` reaches SUB with operands Int 5, Int 3 and finishes with
both operands still on the eval stack and the diagnostic logged, instead of
pushing Int 2. -/
theorem arith_sub_mul_div_not_executed :
    (∀ (m : BytecodeModule) (s : VMState),
      execute m (instr .SUB) s =
        some { s with errors := s.errors ++ ["Runtime Error: Unknown opcode"] } ∧
      execute m (instr .MUL) s =
        some { s with errors := s.errors ++ ["Runtime Error: Unknown opcode"] } ∧
      execute m (instr .DIV) s =
        some { s with errors := s.errors ++ ["Runtime Error: Unknown opcode"] }) ∧
    (compileProgram c1program).code =
      [instrI .LOAD_CONST 0, instrI .LOAD_CONST 1, instr .SUB, instr .HALT] ∧
    (compileProgram c1program).constants = [.int 5, .int 3] ∧
    (vmRun (compileProgram c1program) 10).map VMState.evalStack =
      some [.int 3, .int 5] ∧
    (vmRun (compileProgram c1program) 10).map VMState.errors =
      some ["Runtime Error: Unknown opcode"] := by
  refine ⟨fun m s => ⟨rfl, rfl, rfl⟩, rfl, rfl, rfl, rfl⟩

/-- C4 counterexample.  The claim asserts that after running the compiled
three-statement summation program the eval stack is *empty* at HALT.  It is
not: every expression statement leaves its value on the stack and the
`BUILTIN print` pushes the builtin's `None` return value, which nothing
pops, so exactly one `None` sits on the stack when HALT executes. -/
theorem for_sum_stack_not_empty :
    (vmRun (compileProgram c4program) 100).map VMState.evalStack =
      some [.none] ∧
    ([RuntimeValue.none] : List RuntimeValue) ≠ [] := by
  exact ⟨rfl, by simp⟩

/-- C4 (amended).  Compiling and running the program
`var x: int = 0` / `for i in range(0, 5, 1) { x = x + i }` / `io.print(x)`
(from its token stream through the real parser, compiler and VM) produces
exactly the stdout `10`; at HALT the eval stack holds exactly one value,
the `None` returned by the `print` builtin (not the empty stack the claim
asserts), and no runtime diagnostic is emitted. -/
theorem for_sum_prints_10_stack_none :
    (vmRun (compileProgram c4program) 100).map VMState.output = some ["10"] ∧
    (vmRun (compileProgram c4program) 100).map VMState.evalStack = some [.none] ∧
    (vmRun (compileProgram c4program) 100).map VMState.errors = some [] := by
  exact ⟨rfl, rfl, rfl⟩

/-- C5 counterexample.  The claim's falsy rule says a nonempty Array is
truthy, so JMP_FALSE must not jump on it.  The code's
`RuntimeValue::asBoolean` has no ARRAY case — the default arm returns
`false` — so the VM *jumps*: executing `JMP_FALSE 99` with the nonempty
array `[1]` on the stack sets pc to 99. -/
theorem jmp_false_array_counterexample :
    claimTruthy (.array [.int 1]) = true ∧
    execute c5mod (instrI .JMP_FALSE 99) c5state =
      some { c5state with evalStack := [], pc := 99 } := by
  exact ⟨rfl, rfl⟩

/-- C5 (amended).  JMP_FALSE pops the condition, pushes nothing, and sets
pc to the target exactly when the popped value is falsy per
`RuntimeValue::asBoolean`: None is false; an Int or Float is true iff
nonzero; a Bool is its own value; a Str is true iff nonempty; an Array is
*always false* (the asBoolean switch has no ARRAY case and its default
returns false — this is where the claim's rule is wrong). -/
theorem jmp_false_pops_and_asBoolean :
    (∀ (m : BytecodeModule) (target : Int) (v : RuntimeValue)
       (rest : List RuntimeValue) (s : VMState),
       s.evalStack = v :: rest →
       execute m (instrI .JMP_FALSE target) s =
         some { s with evalStack := rest,
                       pc := if v.asBoolean then s.pc else target }) ∧
    RuntimeValue.none.asBoolean = false ∧
    (∀ n : Int, (RuntimeValue.int n).asBoolean = (n != 0)) ∧
    (∀ q : ℚ, (RuntimeValue.float q).asBoolean = (q != 0)) ∧
    (∀ b : Bool, (RuntimeValue.bool b).asBoolean = b) ∧
    (∀ s : String, (RuntimeValue.str s).asBoolean = !s.isEmpty) ∧
    (∀ l : List RuntimeValue, (RuntimeValue.array l).asBoolean = false) := by
  refine ⟨fun m target v rest s hs => ?_, rfl, fun _ => rfl, fun _ => rfl,
    fun _ => rfl, fun _ => rfl, fun _ => rfl⟩
  simp only [execute, instrI, hs]
  by_cases hb : v.asBoolean <;> simp [hb]

theorem jmp_false_pops_and_asBoolean_witness :
    c5state.evalStack = RuntimeValue.array [.int 1] :: [] ∧
    execute c5mod (instrI .JMP_FALSE 99) c5state =
      some { c5state with evalStack := [],
                          pc := if (RuntimeValue.array [.int 1]).asBoolean
                                then c5state.pc else 99 } :=
  ⟨rfl, jmp_false_pops_and_asBoolean.1 c5mod 99 (.array [.int 1]) [] c5state rfl⟩

/-- C10.  EQ on two arrays pushes `false` and NE pushes `true` — even for
two arrays with identical element sequences: both are non-None and share
the type ARRAY, so execution reaches the type switch, which has no ARRAY
case and falls to `default: false` (EQ) / `default: true` (NE). -/
theorem eq_ne_arrays_never_equal :
    ∀ (m : BytecodeModule) (xs ys rest : List RuntimeValue) (s : VMState),
      s.evalStack = .array ys :: .array xs :: rest →
      execute m (instr .EQ) s = some { s with evalStack := .bool false :: rest } ∧
      execute m (instr .NE) s = some { s with evalStack := .bool true :: rest } := by
  intro m xs ys rest s hs
  constructor <;>
    simp [execute, instr, hs, RuntimeValue.isNone, RuntimeValue.getType,
      VMState.push]

theorem eq_ne_arrays_never_equal_witness :
    c5state.evalStack = RuntimeValue.array [.int 1] :: [] ∧
    (execute c5mod (instr .EQ)
        { c5state with evalStack := [.array [.int 1], .array [.int 1]] } =
      some { c5state with evalStack := [.bool false] } ∧
     execute c5mod (instr .NE)
        { c5state with evalStack := [.array [.int 1], .array [.int 1]] } =
      some { c5state with evalStack := [.bool true] }) :=
  ⟨rfl, eq_ne_arrays_never_equal c5mod [.int 1] [.int 1] []
    { c5state with evalStack := [.array [.int 1], .array [.int 1]] } rfl⟩

/-- C2 counterexample.  The claim says that after a syntax error the parser
continues and the returned Program also contains the statements parsed
*after* the error.  On the stream `+ \n x \n EOF` the statement `x` after
the error is never parsed: the error is recorded, the flag set, one token
is skipped — and then `parseProgram`'s loop exits because its condition
tests `!errorOccurred`.  The resulting Program is empty, although the same
post-error suffix parses to an expression statement on its own. -/
theorem parser_continues_counterexample :
    (parseProgramP 100 toksErr).1 = [] ∧
    (parseProgramP 100 toksErr).2.errorOccurred = true ∧
    (parseProgramP 100 toksErr).2.errorMessage = "Unexpected token: +" ∧
    (parseProgramP 100 toksErr).2.currentPosition = 1 ∧
    (parseProgramP 100 toksOk).1 = [.exprStmt (.identifier "x")] ∧
    ¬ ((parseProgramP 100 toksErr).1 = [.exprStmt (.identifier "x")]) := by
  refine ⟨rfl, rfl, rfl, rfl, rfl, fun h => ?_⟩
  have h2 : ([] : List Stmt) = [Stmt.exprStmt (.identifier "x")] := h
  exact List.cons_ne_nil _ _ h2.symm

/-- C2 (amended).  A syntax error records the message, sets
`errorOccurred`, and the program loop skips one token past a failed
statement — but the loop's condition `!match(EOF) && !errorOccurred` makes
parsing *stop* at the first error rather than continue: on any state with
the error flag set, the program loop immediately returns with no further
statements, so the returned (always non-null) Program contains only the
statements parsed before the first error. -/
theorem parser_stops_on_error :
    (∀ (fuel : Nat) (p : PState) (acc : List Stmt), p.errorOccurred = true →
       parseProgramLoopF fuel p acc = (acc, p)) ∧
    (∀ (p : PState) (msg : String),
       (p.logError msg).errorOccurred = true ∧ (p.logError msg).errorMessage = msg) := by
  constructor
  · intro fuel p acc h
    cases fuel with
    | zero => rfl
    | succ n => simp [parseProgramLoopF, h]
  · intro p msg
    exact ⟨rfl, rfl⟩

theorem parser_stops_on_error_witness :
    (parseProgramP 100 toksErr).2.errorOccurred = true ∧
    parseProgramLoopF 5 (parseProgramP 100 toksErr).2 [] =
      ([], (parseProgramP 100 toksErr).2) :=
  ⟨rfl, parser_stops_on_error.1 5 (parseProgramP 100 toksErr).2 [] rfl⟩

/-- C6 counterexample.  The claim says a bare call to the builtin `print`
resolves without error (via the fallback chain currentModule → __builtins__
→ plain variable).  Analyzing the one-statement program `print()` with no
module declared *does* report an error — `visit(FunctionCall)` performs a
single lookup of `"{currentModule}.{name}"` (here `".print"`) and errors
immediately — even though the claim's second lookup, `__builtins__.print`,
exists in the symbol table (third conjunct). -/
theorem bare_print_call_counterexample :
    (analyze c6program).1 = false ∧
    (analyze c6program).2.errors = ["Undeclared function: '.print'"] ∧
    (analyze []).2.env.lookupSymbol "__builtins__.print" =
      some ⟨"print", .FUNCTION, .NONE, 0, "__builtins__"⟩ :=
  ⟨rfl, rfl, rfl⟩

/-- C6 (amended).  For a function call whose callee is a bare identifier
`name`, the analyzer performs exactly one lookup, of
`"{currentModule}.{name}"`: if it fails, the undeclared-function error is
reported at once (the arguments are not even visited) and UNKNOWN is
pushed; if it succeeds, the arguments are visited and the symbol's type is
pushed.  The three-stage fallback (currentModule, then __builtins__, then a
plain variable) is implemented only in the *Identifier* visitor (third
conjunct), which is not used for call resolution. -/
theorem call_resolution_single_lookup :
    (∀ (a : AState) (name : String) (args : List Expr),
       a.env.lookupSymbol (a.currentModule ++ "." ++ name) = Option.none →
       visitExpr a (.call (.identifier name) args) =
         (a.error ("Undeclared function: '" ++ (a.currentModule ++ "." ++ name) ++
           "'")).pushT .UNKNOWN) ∧
    (∀ (a : AState) (name : String) (args : List Expr) (sym : Symbol),
       a.env.lookupSymbol (a.currentModule ++ "." ++ name) = some sym →
       visitExpr a (.call (.identifier name) args) =
         (visitArgsPop a args).pushT sym.dataType) ∧
    (∀ (a : AState) (name : String) (sym : Symbol),
       a.env.lookupSymbol (a.currentModule ++ "." ++ name) = Option.none →
       a.env.lookupSymbol ("__builtins__." ++ name) = some sym →
       visitExpr a (.identifier name) = a.pushT sym.dataType) := by
  refine ⟨fun a name args h => ?_, fun a name args sym h => ?_,
    fun a name sym h1 h2 => ?_⟩
  · simp [visitExpr, h]
  · simp [visitExpr, h]
  · simp [visitExpr, h1, h2]

theorem call_resolution_single_lookup_witness :
    (analyze []).2.env.lookupSymbol ((analyze []).2.currentModule ++ "." ++ "print") =
      Option.none ∧
    visitExpr (analyze []).2 (.call (.identifier "print") []) =
      (((analyze []).2).error ("Undeclared function: '" ++
        ((analyze []).2.currentModule ++ "." ++ "print") ++ "'")).pushT .UNKNOWN :=
  ⟨rfl, call_resolution_single_lookup.1 (analyze []).2 "print" [] rfl⟩

theorem patchJump_at (stX : CState) (n target : Int) (l r : List Instruction)
    (x : Instruction) (hn : n = (l.length : Int)) (hc : stX.code = l ++ x :: r) :
    (stX.patchJump n target).code = l ++ instrIS x.op target x.strOperand :: r := by
  subst hn
  simp only [CState.patchJump, hc]
  rw [if_pos]
  · simp only [Int.toNat_natCast]
    rw [getD_append_len, set_append_len]
  · refine ⟨by positivity, ?_⟩
    simp only [List.length_append, List.length_cons]
    push_cast
    omega

theorem break_emits_jmp_to_top_target (st : CState) (t : Int) (rest : List Int)
    (h1 : 0 < st.loopDepth) (h2 : st.breakTargets = t :: rest) :
    compileStmt st .breakStmt = st.emit (instrI .JMP t) := by
  simp [compileStmt, h1, h2]

theorem while_break_code (st : CState) (cond : Expr)
    (h : 0 ≤ (compileExpr st cond).loopDepth) :
    (compileStmt st (.whileStmt cond (.block [.breakStmt]))).code =
      (compileExpr st cond).code ++
        [instrI .JMP_FALSE ((compileExpr st cond).code.length + 3),
         instrI .JMP ((compileExpr st cond).code.length + 1),
         instrI .JMP (st.code.length)] := by
  have hin : (compileExpr st cond).loopDepth + 1 > 0 ∧
      ((((compileExpr st cond).code ++ [instrI .JMP_FALSE 0]).length : Int) ::
        (compileExpr st cond).breakTargets ≠ []) := ⟨by omega, by simp⟩
  simp only [compileStmt, compileStmtList, CState.emitJump, CState.enterLoop,
    CState.exitLoop, CState.emit, CState.getCurrentPosition, CState.patchJump,
    CState.cerr]
  rw [if_pos hin]
  simp only [List.headD_cons]
  have hout : (0 : Int) ≤ ((compileExpr st cond).code.length : Int) ∧
      ((compileExpr st cond).code.length : Int) <
        (((compileExpr st cond).code ++ [instrI .JMP_FALSE 0] ++
          [instrI .JMP (((compileExpr st cond).code ++
            [instrI .JMP_FALSE 0]).length : Int)] ++
          [instrI .JMP (st.code.length : Int)]).length : Int) := by
    refine ⟨by positivity, by simp⟩
  rw [if_pos hout]
  simp only [List.append_assoc, List.cons_append, List.nil_append,
    Int.toNat_natCast, List.length_append, List.length_cons, List.length_nil]
  rw [set_append_len, getD_append_len]
  simp [instrIS, instrI, Instruction.mk.injEq]

theorem for_break_code (st : CState) (v : String) (iter : Expr)
    (h : 0 ≤ (compileExpr st iter).loopDepth) :
    (compileStmt st (.forStmt v iter (.block [.breakStmt]))).code =
      (compileExpr st iter).code ++
        [instrS .STORE_VAR "_step", instrS .STORE_VAR "_end", instrS .STORE_VAR v,
         instrS .LOAD_VAR v, instrS .LOAD_VAR "_end", instr .LT,
         instrI .JMP_FALSE ((compileExpr st iter).code.length + 13),
         instrI .JMP ((compileExpr st iter).code.length + 7),
         instrS .LOAD_VAR v, instrS .LOAD_VAR "_step", instr .ADD,
         instrS .STORE_VAR v, instrI .JMP ((compileExpr st iter).code.length + 3)] := by
  simp only [compileStmt, compileStmtList, CState.emitJump, CState.enterLoop,
    CState.exitLoop, CState.emit, CState.getCurrentPosition, CState.cerr]
  split_ifs with h1
  · simp only [List.headD_cons]
    rw [patchJump_at _ _ _
      ((compileExpr st iter).code ++ [instrS .STORE_VAR "_step"] ++
        [instrS .STORE_VAR "_end"] ++ [instrS .STORE_VAR v] ++
        [instrS .LOAD_VAR v] ++ [instrS .LOAD_VAR "_end"] ++ [instr .LT])
      [instrI .JMP (((compileExpr st iter).code ++ [instrS .STORE_VAR "_step"] ++
          [instrS .STORE_VAR "_end"] ++ [instrS .STORE_VAR v] ++
          [instrS .LOAD_VAR v] ++ [instrS .LOAD_VAR "_end"] ++ [instr .LT] ++
          [instrI .JMP_FALSE 0]).length : Int),
       instrS .LOAD_VAR v, instrS .LOAD_VAR "_step", instr .ADD,
       instrS .STORE_VAR v,
       instrI .JMP (((compileExpr st iter).code ++ [instrS .STORE_VAR "_step"] ++
          [instrS .STORE_VAR "_end"] ++ [instrS .STORE_VAR v]).length : Int)]
      (instrI .JMP_FALSE 0) rfl
      (by simp only [List.append_assoc, List.cons_append, List.nil_append])]
    simp [instrIS, instrI, instrS, instr, Instruction.mk.injEq, List.append_assoc]
  · exfalso
    apply h1
    refine ⟨by omega, by simp⟩

theorem for_continue_code (st : CState) (v : String) (iter : Expr)
    (h : 0 ≤ (compileExpr st iter).loopDepth) :
    (compileStmt st (.forStmt v iter (.block [.continueStmt]))).code =
      (compileExpr st iter).code ++
        [instrS .STORE_VAR "_step", instrS .STORE_VAR "_end", instrS .STORE_VAR v,
         instrS .LOAD_VAR v, instrS .LOAD_VAR "_end", instr .LT,
         instrI .JMP_FALSE ((compileExpr st iter).code.length + 13),
         instrI .JMP ((compileExpr st iter).code.length + 7),
         instrS .LOAD_VAR v, instrS .LOAD_VAR "_step", instr .ADD,
         instrS .STORE_VAR v, instrI .JMP ((compileExpr st iter).code.length + 3)] := by
  simp only [compileStmt, compileStmtList, CState.emitJump, CState.enterLoop,
    CState.exitLoop, CState.emit, CState.getCurrentPosition, CState.cerr]
  split_ifs with h1
  · simp only [List.headD_cons]
    rw [patchJump_at _ _ _
      ((compileExpr st iter).code ++ [instrS .STORE_VAR "_step"] ++
        [instrS .STORE_VAR "_end"] ++ [instrS .STORE_VAR v] ++
        [instrS .LOAD_VAR v] ++ [instrS .LOAD_VAR "_end"] ++ [instr .LT])
      [instrI .JMP (((compileExpr st iter).code ++ [instrS .STORE_VAR "_step"] ++
          [instrS .STORE_VAR "_end"] ++ [instrS .STORE_VAR v] ++
          [instrS .LOAD_VAR v] ++ [instrS .LOAD_VAR "_end"] ++ [instr .LT] ++
          [instrI .JMP_FALSE 0]).length : Int),
       instrS .LOAD_VAR v, instrS .LOAD_VAR "_step", instr .ADD,
       instrS .STORE_VAR v,
       instrI .JMP (((compileExpr st iter).code ++ [instrS .STORE_VAR "_step"] ++
          [instrS .STORE_VAR "_end"] ++ [instrS .STORE_VAR v]).length : Int)]
      (instrI .JMP_FALSE 0) rfl
      (by simp only [List.append_assoc, List.cons_append, List.nil_append])]
    simp [instrIS, instrI, instrS, instr, Instruction.mk.injEq, List.append_assoc]
  · exfalso
    apply h1
    refine ⟨by omega, by simp⟩

/-- C3.  In a compiled while loop, the break target recorded at `enterLoop`
is the code position immediately after the loop's JMP_FALSE — the address of
the *first body instruction* — and in a compiled for-in loop both the
continue and the break target equal the first body instruction's address;
a compiled break emits `JMP` to the top break target.  Concretely (first
conjunct): when the body is a single `break`, the break's JMP sits at index
`|cond| + 1` (first body instruction) and its operand is that same address
`|cond| + 1` — control transfers to the start of the loop body, not past
the loop's end (the loop occupies indices up to `|cond| + 3`).  For the
for-in loop (second and third conjuncts) a body `break` and a body
`continue` both emit `JMP` to `|iter| + 7`, the first body instruction,
while the loop extends to `|iter| + 13`.  The fourth conjunct is the
general break rule: with a nonempty loop stack, `break` emits exactly
`JMP breakTargets.top`. -/
theorem loop_break_targets_body_start :
    (∀ (st : CState) (cond : Expr), 0 ≤ (compileExpr st cond).loopDepth →
       (compileStmt st (.whileStmt cond (.block [.breakStmt]))).code =
         (compileExpr st cond).code ++
           [instrI .JMP_FALSE ((compileExpr st cond).code.length + 3),
            instrI .JMP ((compileExpr st cond).code.length + 1),
            instrI .JMP (st.code.length)]) ∧
    (∀ (st : CState) (v : String) (iter : Expr),
       0 ≤ (compileExpr st iter).loopDepth →
       (compileStmt st (.forStmt v iter (.block [.breakStmt]))).code =
         (compileExpr st iter).code ++
           [instrS .STORE_VAR "_step", instrS .STORE_VAR "_end",
            instrS .STORE_VAR v, instrS .LOAD_VAR v, instrS .LOAD_VAR "_end",
            instr .LT, instrI .JMP_FALSE ((compileExpr st iter).code.length + 13),
            instrI .JMP ((compileExpr st iter).code.length + 7),
            instrS .LOAD_VAR v, instrS .LOAD_VAR "_step", instr .ADD,
            instrS .STORE_VAR v,
            instrI .JMP ((compileExpr st iter).code.length + 3)]) ∧
    (∀ (st : CState) (v : String) (iter : Expr),
       0 ≤ (compileExpr st iter).loopDepth →
       (compileStmt st (.forStmt v iter (.block [.continueStmt]))).code =
         (compileExpr st iter).code ++
           [instrS .STORE_VAR "_step", instrS .STORE_VAR "_end",
            instrS .STORE_VAR v, instrS .LOAD_VAR v, instrS .LOAD_VAR "_end",
            instr .LT, instrI .JMP_FALSE ((compileExpr st iter).code.length + 13),
            instrI .JMP ((compileExpr st iter).code.length + 7),
            instrS .LOAD_VAR v, instrS .LOAD_VAR "_step", instr .ADD,
            instrS .STORE_VAR v,
            instrI .JMP ((compileExpr st iter).code.length + 3)]) ∧
    (∀ (st : CState) (t : Int) (rest : List Int),
       0 < st.loopDepth → st.breakTargets = t :: rest →
       compileStmt st .breakStmt = st.emit (instrI .JMP t)) :=
  ⟨while_break_code, for_break_code, for_continue_code, break_emits_jmp_to_top_target⟩

theorem loop_break_targets_body_start_witness :
    (0 ≤ (compileExpr compileInit (.booleanLit true)).loopDepth) ∧
    (compileStmt compileInit
        (.whileStmt (.booleanLit true) (.block [.breakStmt]))).code =
      (compileExpr compileInit (.booleanLit true)).code ++
        [instrI .JMP_FALSE
          ((compileExpr compileInit (.booleanLit true)).code.length + 3),
         instrI .JMP
          ((compileExpr compileInit (.booleanLit true)).code.length + 1),
         instrI .JMP (compileInit.code.length)] :=
  ⟨by decide, loop_break_targets_body_start.1 compileInit (.booleanLit true)
    (by decide)⟩


theorem lookupA_setA_self {a : Type} (m : List (String × a)) (n : String) (v : a)
    (h : (lookupA m n).isSome) : lookupA (setA m n v) n = some v := by
  induction m with
  | nil => simp [lookupA] at h
  | cons p rest ih =>
    by_cases hk : p.1 = n
    · simp [lookupA, setA, hk]
    · simp only [lookupA, setA, hk, if_false] at h ⊢
      exact ih h

theorem lookupA_setA_ne {a : Type} (m : List (String × a)) (n mm : String) (v : a)
    (h : mm ≠ n) : lookupA (setA m n v) mm = lookupA m mm := by
  induction m with
  | nil => simp [setA]
  | cons p rest ih =>
    by_cases hk : p.1 = n
    · subst hk
      simp [lookupA, setA, Ne.symm h]
    · by_cases hm : p.1 = mm
      · simp [lookupA, setA, hk, hm, h]
      · simp [lookupA, setA, hk, hm, ih]

theorem setVarFrames_spec (fs : List CallFrame) (nm : String) (v : RuntimeValue) :
    (match fs.findIdx? (fun fr => fr.hasVariable nm) with
     | some k => ∃ fs', setVarFrames fs nm v = some fs' ∧
         fs'.length = fs.length ∧
         (∀ (j : Nat) (mm : String), mm ≠ nm →
            (fs'.getD j dfltFrame).getVariable mm =
              (fs.getD j dfltFrame).getVariable mm) ∧
         (fs'.getD k dfltFrame).getVariable nm = some v ∧
         (∀ j : Nat, j ≠ k → (fs'.getD j dfltFrame).getVariable nm =
            (fs.getD j dfltFrame).getVariable nm)
     | Option.none => setVarFrames fs nm v = Option.none) := by
  induction fs with
  | nil => simp [setVarFrames]
  | cons f fs ih =>
    cases hf : f.hasVariable nm with
    | true =>
      simp only [List.findIdx?_cons, hf, if_true]
      refine ⟨{ f with localVars := setA f.localVars nm v } :: fs, ?_, by simp,
        ?_, ?_, ?_⟩
      · have hv : (lookupA f.localVars nm).isSome := by
          simpa [CallFrame.hasVariable] using hf
        simp [setVarFrames, CallFrame.setVariable, hv]
      · intro j mm hmm
        cases j with
        | zero => simp [CallFrame.getVariable, lookupA_setA_ne _ _ _ _ hmm]
        | succ j => simp
      · have hv : (lookupA f.localVars nm).isSome := by
          simpa [CallFrame.hasVariable] using hf
        simpa [CallFrame.getVariable] using lookupA_setA_self _ _ v hv
      · intro j hj
        cases j with
        | zero => exact absurd rfl hj
        | succ j => simp
    | false =>
      have hv : (lookupA f.localVars nm).isSome = false := by
        simpa [CallFrame.hasVariable] using hf
      have hset : f.setVariable nm v = (false, f) := by
        simp [CallFrame.setVariable, hv]
      simp only [List.findIdx?_cons, hf, Bool.false_eq_true, if_false,
        List.findIdx?_start_succ]
      rcases hidx : fs.findIdx? (fun fr => fr.hasVariable nm) with _ | k
      · rw [hidx] at ih
        simp only [hidx, Option.map_none']
        simp [setVarFrames, hset, ih]
      · rw [hidx] at ih
        obtain ⟨fs', h1, h2, h3, h4, h5⟩ := ih
        simp only [hidx, Option.map_some']
        refine ⟨f :: fs', ?_, by simp [h2], ?_, ?_, ?_⟩
        · simp [setVarFrames, hset, h1]
        · intro j mm hmm
          cases j with
          | zero => simp
          | succ j => simpa using h3 j mm hmm
        · simpa using h4
        · intro j hj
          cases j with
          | zero => simp
          | succ j =>
            have hjk : j ≠ k := by omega
            simpa using h5 j hjk

/-- C7: `STORE_VAR` and `STORE_VAL` pop the top of the evaluation stack and
bind it to the instruction's string operand: the first (topmost) call frame
that already has the variable gets it updated via `setVariable`; if no frame
has it, it is declared fresh in the topmost frame.  Other bindings — other
names anywhere, and the stored name in every other frame — are untouched,
and the frame count is preserved. -/
theorem store_var_topmost_frame :
    ∀ (m : BytecodeModule) (op : OpCode) (nm : String) (v : RuntimeValue)
      (rest : List RuntimeValue) (s : VMState) (f : CallFrame) (fs : List CallFrame),
      (op = .STORE_VAR ∨ op = .STORE_VAL) →
      s.evalStack = v :: rest → s.callStack = f :: fs →
      ∃ cs', execute m (instrS op nm) s =
          some { s with evalStack := rest, callStack := cs' } ∧
        cs'.length = (f :: fs).length ∧
        (∀ (j : Nat) (mm : String), mm ≠ nm →
          (cs'.getD j dfltFrame).getVariable mm =
            ((f :: fs).getD j dfltFrame).getVariable mm) ∧
        (match (f :: fs).findIdx? (fun fr => fr.hasVariable nm) with
         | some k =>
            (cs'.getD k dfltFrame).getVariable nm = some v ∧
            ∀ j : Nat, j ≠ k → (cs'.getD j dfltFrame).getVariable nm =
              ((f :: fs).getD j dfltFrame).getVariable nm
         | Option.none =>
            (cs'.getD 0 dfltFrame).getVariable nm = some v ∧
            ∀ j : Nat, j ≠ 0 → (cs'.getD j dfltFrame).getVariable nm =
              ((f :: fs).getD j dfltFrame).getVariable nm) := by
  intro m op nm v rest s f fs hop hstack hcall
  have hspec := setVarFrames_spec (f :: fs) nm v
  rcases hidx : (f :: fs).findIdx? (fun fr => fr.hasVariable nm) with _ | k
  · rw [hidx] at hspec
    have hf : f.hasVariable nm = false := by
      cases hfv : f.hasVariable nm
      · rfl
      · simp [List.findIdx?_cons, hfv] at hidx
    have hvnone : (lookupA f.localVars nm).isSome = false := by
      simpa [CallFrame.hasVariable] using hf
    refine ⟨{ f with localVars := (nm, v) :: f.localVars } :: fs, ?_, by simp,
      ?_, ?_⟩
    · rcases hop with h | h <;> subst h <;>
        simp [execute, instrS, hstack, hcall, hspec, declareVarFrames,
          CallFrame.declareVariable, hvnone]
    · intro j mm hmm
      cases j with
      | zero => simp [CallFrame.getVariable, lookupA, Ne.symm hmm]
      | succ j => simp
    · simp only [hidx]
      refine ⟨by simp [CallFrame.getVariable, lookupA], ?_⟩
      intro j hj
      cases j with
      | zero => exact absurd rfl hj
      | succ j => simp
  · rw [hidx] at hspec
    obtain ⟨fs', h1, h2, h3, h4, h5⟩ := hspec
    refine ⟨fs', ?_, h2, h3, ?_⟩
    · rcases hop with h | h <;> subst h <;>
        simp [execute, instrS, hstack, hcall, h1]
    · simp only [hidx]
      exact ⟨h4, h5⟩

theorem store_var_topmost_frame_witness :
    ∃ cs',
      execute ⟨[], []⟩ (instrS .STORE_VAR "x")
          ⟨[.int 7], [], [⟨"main", 0, 0, [("x", .int 0)]⟩], 0, true, [], []⟩ =
        some { (⟨[.int 7], [], [⟨"main", 0, 0, [("x", .int 0)]⟩], 0, true, [], []⟩ : VMState) with
                 evalStack := [], callStack := cs' } ∧
      (cs'.getD 0 dfltFrame).getVariable "x" = some (.int 7) := by
  obtain ⟨cs', h1, h2, h3, h4⟩ :=
    store_var_topmost_frame ⟨[], []⟩ .STORE_VAR "x" (.int 7) []
      ⟨[.int 7], [], [⟨"main", 0, 0, [("x", .int 0)]⟩], 0, true, [], []⟩
      ⟨"main", 0, 0, [("x", .int 0)]⟩ [] (Or.inl rfl) rfl rfl
  have hfi : ([(⟨"main", 0, 0, [("x", .int 0)]⟩ : CallFrame)]).findIdx?
      (fun fr => fr.hasVariable "x") = some 0 := rfl
  rw [hfi] at h4
  exact ⟨cs', h1, h4.1⟩

theorem getD_append_lt {α : Type} (l t : List α) (k : Nat) (d : α)
    (h : k < l.length) : (l ++ t).getD k d = l.getD k d := by
  induction l generalizing k with
  | nil => simp at h
  | cons a as ih =>
    cases k with
    | zero => rfl
    | succ k =>
      simp only [List.length_cons, Nat.succ_lt_succ_iff] at h
      simp only [List.cons_append, List.getD_cons_succ]
      exact ih k h

theorem CGrows_refl (st : CState) : CGrows st st := by
  refine ⟨⟨[], ?_⟩, ⟨[], ?_⟩, ⟨[], ?_⟩, ⟨[], ?_⟩, ⟨[], ?_⟩⟩ <;> simp

theorem CGrows_trans {s1 s2 s3 : CState} (h1 : CGrows s1 s2)
    (h2 : CGrows s2 s3) : CGrows s1 s3 := by
  obtain ⟨⟨a1, e1⟩, ⟨a2, e2⟩, ⟨a3, e3⟩, ⟨a4, e4⟩, ⟨a5, e5⟩⟩ := h1
  obtain ⟨⟨b1, f1⟩, ⟨b2, f2⟩, ⟨b3, f3⟩, ⟨b4, f4⟩, ⟨b5, f5⟩⟩ := h2
  exact ⟨⟨a1 ++ b1, by simp [f1, e1]⟩, ⟨a2 ++ b2, by simp [f2, e2]⟩,
    ⟨a3 ++ b3, by simp [f3, e3]⟩, ⟨a4 ++ b4, by simp [f4, e4]⟩,
    ⟨a5 ++ b5, by simp [f5, e5]⟩⟩

theorem addConstant_grows (st : CState) (v : RuntimeValue) :
    CGrows st (st.addConstant v).2 := by
  cases v with
  | int n =>
    rcases h : lookupK st.intConstants n with _ | i
    · exact ⟨⟨[.int n], by simp [CState.addConstant, h]⟩,
        ⟨[(n, (st.constants.length : Int))], by simp [CState.addConstant, h]⟩,
        ⟨[], by simp [CState.addConstant, h]⟩,
        ⟨[], by simp [CState.addConstant, h]⟩,
        ⟨[], by simp [CState.addConstant, h]⟩⟩
    · have hres : st.addConstant (.int n) = (i, st) := by
        simp [CState.addConstant, h]
      rw [hres]
      exact CGrows_refl st
  | float q =>
    rcases h : lookupK st.floatConstants q with _ | i
    · exact ⟨⟨[.float q], by simp [CState.addConstant, h]⟩,
        ⟨[], by simp [CState.addConstant, h]⟩,
        ⟨[(q, (st.constants.length : Int))], by simp [CState.addConstant, h]⟩,
        ⟨[], by simp [CState.addConstant, h]⟩,
        ⟨[], by simp [CState.addConstant, h]⟩⟩
    · have hres : st.addConstant (.float q) = (i, st) := by
        simp [CState.addConstant, h]
      rw [hres]
      exact CGrows_refl st
  | bool b =>
    rcases h : lookupK st.boolConstants b with _ | i
    · exact ⟨⟨[.bool b], by simp [CState.addConstant, h]⟩,
        ⟨[], by simp [CState.addConstant, h]⟩,
        ⟨[], by simp [CState.addConstant, h]⟩,
        ⟨[(b, (st.constants.length : Int))], by simp [CState.addConstant, h]⟩,
        ⟨[], by simp [CState.addConstant, h]⟩⟩
    · have hres : st.addConstant (.bool b) = (i, st) := by
        simp [CState.addConstant, h]
      rw [hres]
      exact CGrows_refl st
  | str sv =>
    rcases h : lookupK st.stringConstants sv with _ | i
    · exact ⟨⟨[.str sv], by simp [CState.addConstant, h]⟩,
        ⟨[], by simp [CState.addConstant, h]⟩,
        ⟨[], by simp [CState.addConstant, h]⟩,
        ⟨[], by simp [CState.addConstant, h]⟩,
        ⟨[(sv, (st.constants.length : Int))], by simp [CState.addConstant, h]⟩⟩
    · have hres : st.addConstant (.str sv) = (i, st) := by
        simp [CState.addConstant, h]
      rw [hres]
      exact CGrows_refl st
  | none =>
    exact ⟨⟨[.none], by simp [CState.addConstant]⟩,
      ⟨[], by simp [CState.addConstant]⟩, ⟨[], by simp [CState.addConstant]⟩,
      ⟨[], by simp [CState.addConstant]⟩, ⟨[], by simp [CState.addConstant]⟩⟩
  | array l =>
    exact ⟨⟨[.array l], by simp [CState.addConstant]⟩,
      ⟨[], by simp [CState.addConstant]⟩, ⟨[], by simp [CState.addConstant]⟩,
      ⟨[], by simp [CState.addConstant]⟩, ⟨[], by simp [CState.addConstant]⟩⟩

theorem addConstants_grows (st : CState) (ws : List RuntimeValue) :
    CGrows st (addConstants st ws) := by
  induction ws generalizing st with
  | nil => exact CGrows_refl st
  | cons w ws ih =>
    simp only [addConstants]
    exact CGrows_trans (addConstant_grows st w) (ih _)

theorem cacheLookup_grows {st st' : CState} (v : RuntimeValue) (i : Int)
    (h : cacheLookup st v = some i) (hg : CGrows st st') :
    cacheLookup st' v = some i := by
  obtain ⟨_, ⟨t2, e2⟩, ⟨t3, e3⟩, ⟨t4, e4⟩, ⟨t5, e5⟩⟩ := hg
  cases v with
  | int n =>
    simp only [cacheLookup] at h ⊢
    rw [e2]
    exact lookupK_append_some _ _ _ _ h
  | float q =>
    simp only [cacheLookup] at h ⊢
    rw [e3]
    exact lookupK_append_some _ _ _ _ h
  | bool b =>
    simp only [cacheLookup] at h ⊢
    rw [e4]
    exact lookupK_append_some _ _ _ _ h
  | str sv =>
    simp only [cacheLookup] at h ⊢
    rw [e5]
    exact lookupK_append_some _ _ _ _ h
  | none => simp [cacheLookup] at h
  | array l => simp [cacheLookup] at h

theorem addConstant_hit (st : CState) (v : RuntimeValue) (i : Int)
    (h : cacheLookup st v = some i) : st.addConstant v = (i, st) := by
  cases v with
  | int n =>
    simp only [cacheLookup] at h
    simp [CState.addConstant, h]
  | float q =>
    simp only [cacheLookup] at h
    simp [CState.addConstant, h]
  | bool b =>
    simp only [cacheLookup] at h
    simp [CState.addConstant, h]
  | str sv =>
    simp only [cacheLookup] at h
    simp [CState.addConstant, h]
  | none => simp [cacheLookup] at h
  | array l => simp [cacheLookup] at h

theorem addConstant_caches_self (st : CState) (v : RuntimeValue)
    (hv : cacheable v = true) :
    cacheLookup (st.addConstant v).2 v = some (st.addConstant v).1 := by
  cases v with
  | int n =>
    rcases h : lookupK st.intConstants n with _ | i
    · simp only [CState.addConstant, h, cacheLookup]
      exact lookupK_none_append_self _ _ _ h
    · simp only [CState.addConstant, h, cacheLookup]
  | float q =>
    rcases h : lookupK st.floatConstants q with _ | i
    · simp only [CState.addConstant, h, cacheLookup]
      exact lookupK_none_append_self _ _ _ h
    · simp only [CState.addConstant, h, cacheLookup]
  | bool b =>
    rcases h : lookupK st.boolConstants b with _ | i
    · simp only [CState.addConstant, h, cacheLookup]
      exact lookupK_none_append_self _ _ _ h
    · simp only [CState.addConstant, h, cacheLookup]
  | str sv =>
    rcases h : lookupK st.stringConstants sv with _ | i
    · simp only [CState.addConstant, h, cacheLookup]
      exact lookupK_none_append_self _ _ _ h
    · simp only [CState.addConstant, h, cacheLookup]
  | none => simp [cacheable] at hv
  | array l => simp [cacheable] at hv

theorem poolHolds_append {κ : Type} (c t : List RuntimeValue)
    (mk : κ → RuntimeValue) (m : List (κ × Int)) (h : poolHolds c mk m) :
    poolHolds (c ++ t) mk m := by
  intro p hp
  obtain ⟨h1, h2, h3⟩ := h p hp
  refine ⟨h1, by rw [List.length_append]; omega, ?_⟩
  rw [getD_append_lt _ _ _ _ h2]
  exact h3

theorem poolHolds_extend {κ : Type} (c : List RuntimeValue)
    (mk : κ → RuntimeValue) (m : List (κ × Int)) (k : κ)
    (h : poolHolds c mk m) :
    poolHolds (c ++ [mk k]) mk (m ++ [(k, (c.length : Int))]) := by
  intro p hp
  rcases List.mem_append.1 hp with hm | hm
  · exact poolHolds_append c [mk k] mk m h p hm
  · simp only [List.mem_singleton] at hm
    subst hm
    refine ⟨Int.natCast_nonneg _, by simp, ?_⟩
    simp

theorem addConstant_sound (st : CState) (v : RuntimeValue)
    (hinv : CacheINV st) :
    CacheINV (st.addConstant v).2 ∧
    (cacheable v = true →
      0 ≤ (st.addConstant v).1 ∧
      (st.addConstant v).1.toNat < (st.addConstant v).2.constants.length ∧
      (st.addConstant v).2.constants.getD (st.addConstant v).1.toNat .none = v) := by
  obtain ⟨hI, hF, hB, hS⟩ := hinv
  cases v with
  | int n =>
    rcases h : lookupK st.intConstants n with _ | i
    · have hres1 : (st.addConstant (.int n)).1 = (st.constants.length : Int) := by
        simp [CState.addConstant, h]
      have hres2 : (st.addConstant (.int n)).2 =
          { st with constants := st.constants ++ [.int n],
                    intConstants :=
                      st.intConstants ++ [(n, (st.constants.length : Int))] } := by
        simp [CState.addConstant, h]
      rw [hres1, hres2]
      refine ⟨⟨poolHolds_extend _ _ _ _ hI, poolHolds_append _ _ _ _ hF,
        poolHolds_append _ _ _ _ hB, poolHolds_append _ _ _ _ hS⟩,
        fun _ => ⟨Int.natCast_nonneg _, by simp, ?_⟩⟩
      simp
    · have hmem := lookupK_mem _ _ _ h
      obtain ⟨h1, h2, h3⟩ := hI _ hmem
      have hres : st.addConstant (.int n) = (i, st) := by
        simp [CState.addConstant, h]
      rw [hres]
      exact ⟨⟨hI, hF, hB, hS⟩, fun _ => ⟨h1, h2, h3⟩⟩
  | float q =>
    rcases h : lookupK st.floatConstants q with _ | i
    · have hres1 : (st.addConstant (.float q)).1 = (st.constants.length : Int) := by
        simp [CState.addConstant, h]
      have hres2 : (st.addConstant (.float q)).2 =
          { st with constants := st.constants ++ [.float q],
                    floatConstants :=
                      st.floatConstants ++ [(q, (st.constants.length : Int))] } := by
        simp [CState.addConstant, h]
      rw [hres1, hres2]
      refine ⟨⟨poolHolds_append _ _ _ _ hI, poolHolds_extend _ _ _ _ hF,
        poolHolds_append _ _ _ _ hB, poolHolds_append _ _ _ _ hS⟩,
        fun _ => ⟨Int.natCast_nonneg _, by simp, ?_⟩⟩
      simp
    · have hmem := lookupK_mem _ _ _ h
      obtain ⟨h1, h2, h3⟩ := hF _ hmem
      have hres : st.addConstant (.float q) = (i, st) := by
        simp [CState.addConstant, h]
      rw [hres]
      exact ⟨⟨hI, hF, hB, hS⟩, fun _ => ⟨h1, h2, h3⟩⟩
  | bool b =>
    rcases h : lookupK st.boolConstants b with _ | i
    · have hres1 : (st.addConstant (.bool b)).1 = (st.constants.length : Int) := by
        simp [CState.addConstant, h]
      have hres2 : (st.addConstant (.bool b)).2 =
          { st with constants := st.constants ++ [.bool b],
                    boolConstants :=
                      st.boolConstants ++ [(b, (st.constants.length : Int))] } := by
        simp [CState.addConstant, h]
      rw [hres1, hres2]
      refine ⟨⟨poolHolds_append _ _ _ _ hI, poolHolds_append _ _ _ _ hF,
        poolHolds_extend _ _ _ _ hB, poolHolds_append _ _ _ _ hS⟩,
        fun _ => ⟨Int.natCast_nonneg _, by simp, ?_⟩⟩
      simp
    · have hmem := lookupK_mem _ _ _ h
      obtain ⟨h1, h2, h3⟩ := hB _ hmem
      have hres : st.addConstant (.bool b) = (i, st) := by
        simp [CState.addConstant, h]
      rw [hres]
      exact ⟨⟨hI, hF, hB, hS⟩, fun _ => ⟨h1, h2, h3⟩⟩
  | str sv =>
    rcases h : lookupK st.stringConstants sv with _ | i
    · have hres1 : (st.addConstant (.str sv)).1 = (st.constants.length : Int) := by
        simp [CState.addConstant, h]
      have hres2 : (st.addConstant (.str sv)).2 =
          { st with constants := st.constants ++ [.str sv],
                    stringConstants :=
                      st.stringConstants ++ [(sv, (st.constants.length : Int))] } := by
        simp [CState.addConstant, h]
      rw [hres1, hres2]
      refine ⟨⟨poolHolds_append _ _ _ _ hI, poolHolds_append _ _ _ _ hF,
        poolHolds_append _ _ _ _ hB, poolHolds_extend _ _ _ _ hS⟩,
        fun _ => ⟨Int.natCast_nonneg _, by simp, ?_⟩⟩
      simp
    · have hmem := lookupK_mem _ _ _ h
      obtain ⟨h1, h2, h3⟩ := hS _ hmem
      have hres : st.addConstant (.str sv) = (i, st) := by
        simp [CState.addConstant, h]
      rw [hres]
      exact ⟨⟨hI, hF, hB, hS⟩, fun _ => ⟨h1, h2, h3⟩⟩
  | none =>
    have hres2 : (st.addConstant .none).2 =
        { st with constants := st.constants ++ [.none] } := by
      simp [CState.addConstant]
    rw [hres2]
    exact ⟨⟨poolHolds_append _ _ _ _ hI, poolHolds_append _ _ _ _ hF,
      poolHolds_append _ _ _ _ hB, poolHolds_append _ _ _ _ hS⟩,
      fun hc => by simp [cacheable] at hc⟩
  | array l =>
    have hres2 : (st.addConstant (.array l)).2 =
        { st with constants := st.constants ++ [.array l] } := by
      simp [CState.addConstant]
    rw [hres2]
    exact ⟨⟨poolHolds_append _ _ _ _ hI, poolHolds_append _ _ _ _ hF,
      poolHolds_append _ _ _ _ hB, poolHolds_append _ _ _ _ hS⟩,
      fun hc => by simp [cacheable] at hc⟩

theorem addConstants_sound (st : CState) (ws : List RuntimeValue)
    (h : CacheINV st) : CacheINV (addConstants st ws) := by
  induction ws generalizing st with
  | nil => exact h
  | cons w ws ih =>
    simp only [addConstants]
    exact ih _ (addConstant_sound st w h).1

/-- C9: constant-pool deduplication.  (1) `Compiler::addConstant` is
idempotent per type: a second call with the same int/float/bool/string
value — with any other `addConstant` calls in between — returns the index
the first call returned.  (2) Cross-type values (e.g. `Int 0` and
`String "0"`) never share a pool index: starting from any state whose
caches are consistent with the pool, a later cacheable value of a
different type gets an index distinct from the earlier one.  (3) The
state `Compiler::compile` starts from satisfies that consistency
invariant, so (1) and (2) cover every compilation. -/
theorem constant_pool_dedup :
    (∀ (st : CState) (v : RuntimeValue) (ws : List RuntimeValue),
        cacheable v = true →
        ((addConstants (st.addConstant v).2 ws).addConstant v).1 =
          (st.addConstant v).1) ∧
    (∀ (st : CState) (v w : RuntimeValue) (ws : List RuntimeValue),
        CacheINV st → cacheable v = true → cacheable w = true →
        v.getType ≠ w.getType →
        ((addConstants (st.addConstant v).2 ws).addConstant w).1 ≠
          (st.addConstant v).1) ∧
    CacheINV compileInit := by
  refine ⟨?_, ?_, ?_⟩
  · intro st v ws hv
    have h5 := addConstant_caches_self st v hv
    have h4 := cacheLookup_grows v _ h5 (addConstants_grows _ ws)
    rw [addConstant_hit _ _ _ h4]
  · intro st v w ws hinv hv hw hty heq
    obtain ⟨hinv1, hres1⟩ := addConstant_sound st v hinv
    obtain ⟨hv0, hvlen, hvslot⟩ := hres1 hv
    have hinv2 := addConstants_sound _ ws hinv1
    obtain ⟨_, hres3⟩ := addConstant_sound (addConstants (st.addConstant v).2 ws) w hinv2
    obtain ⟨hw0, hwlen, hwslot⟩ := hres3 hw
    obtain ⟨⟨t1, e1⟩, _, _, _, _⟩ := addConstants_grows (st.addConstant v).2 ws
    obtain ⟨⟨t2, e2⟩, _, _, _, _⟩ :=
      addConstant_grows (addConstants (st.addConstant v).2 ws) w
    have hslotv : ((addConstants (st.addConstant v).2 ws).addConstant w).2.constants.getD
        (st.addConstant v).1.toNat .none = v := by
      rw [e2, e1]
      rw [getD_append_lt _ _ _ _ (by rw [List.length_append]; omega)]
      rw [getD_append_lt _ _ _ _ hvlen]
      exact hvslot
    rw [heq] at hwslot
    have hvw : v = w := by
      rw [← hslotv]
      exact hwslot
    exact hty (by rw [hvw])
  · refine ⟨?_, ?_, ?_, ?_⟩ <;> intro p hp <;> simp [compileInit] at hp

theorem constant_pool_dedup_witness :
    ((addConstants ((compileInit.addConstant (.int 0)).2) [.bool true]).addConstant
        (.int 0)).1 =
      (compileInit.addConstant (.int 0)).1 ∧
    ((addConstants ((compileInit.addConstant (.int 0)).2) [.bool true]).addConstant
        (.str "0")).1 ≠
      (compileInit.addConstant (.int 0)).1 := by
  constructor
  · exact constant_pool_dedup.1 compileInit (.int 0) [.bool true] rfl
  · exact constant_pool_dedup.2.1 compileInit (.int 0) (.str "0") [.bool true]
      (by refine ⟨?_, ?_, ?_, ?_⟩ <;> intro p hp <;> simp [compileInit] at hp)
      rfl rfl (by decide)

end Gobol
